import Mathlib

/-!
Verification of the TelegramGiftBuyer repository: a shallow embedding of the
configuration service (`services/config.py`), the profile-deletion and
recipient-editing handlers (`handlers/handlers_wizard.py`) and the purchase
worker (`main.py`), together with proofs settling the specification claims.

Python values that flow through the configuration code are JSON-like: the
`PyVal` type mirrors them.  Python dictionaries are modelled as association
lists in insertion order (Python 3.7+ dicts preserve insertion order); all
dictionaries built by the code have pairwise-distinct keys.
-/

/-- JSON-like Python value: `None`, `bool`, `int`, `str`, `list`, `dict`. -/
inductive PyVal where
  | none : PyVal
  | bool : Bool → PyVal
  | int : Int → PyVal
  | str : String → PyVal
  | list : List PyVal → PyVal
  | dict : List (String × PyVal) → PyVal
deriving Repr

/-- First-match association-list lookup, the semantics of `d[key]` /
`key in d` on a Python dict modelled as an insertion-ordered list. -/
def alookup : List (String × PyVal) → String → Option PyVal
  | [], _ => Option.none
  | kv :: rest, key => if key = kv.1 then Option.some kv.2 else alookup rest key

/-- Python dict item assignment `d[key] = v`: replaces the value in place if
the key is present (keeping its position), otherwise appends at the end. -/
def dset : List (String × PyVal) → String → PyVal → List (String × PyVal)
  | [], key, v => [(key, v)]
  | kv :: rest, key, v => if key = kv.1 then (key, v) :: rest else kv :: dset rest key v

/-- Python `d.setdefault(key, v)`: inserts `v` at the end only if `key` is absent. -/
def dsetdefault (xs : List (String × PyVal)) (key : String) (v : PyVal) :
    List (String × PyVal) :=
  if (alookup xs key).isSome then xs else xs ++ [(key, v)]

mutual
/-- Python `==` on JSON-like values: `True == 1`, `False == 0`, dict
comparison is order-insensitive (length plus per-key value comparison). -/
def pyEq : PyVal → PyVal → Bool
  | .none, .none => true
  | .bool a, .bool b => a == b
  | .bool a, .int b => (if a then (1 : Int) else 0) == b
  | .int a, .bool b => a == (if b then (1 : Int) else 0)
  | .int a, .int b => a == b
  | .str a, .str b => a == b
  | .list xs, .list ys => pyEqList xs ys
  | .dict xs, .dict ys => xs.length == ys.length && pyEqDict xs ys
  | _, _ => false

/-- Pointwise Python `==` on lists. -/
def pyEqList : List PyVal → List PyVal → Bool
  | [], [] => true
  | x :: xs, y :: ys => pyEq x y && pyEqList xs ys
  | _, _ => false

/-- One inclusion of Python dict equality: every key of the first dict is
present in the second with `==`-equal value. -/
def pyEqDict : List (String × PyVal) → List (String × PyVal) → Bool
  | [], _ => true
  | kv :: rest, ys =>
    (match alookup ys kv.1 with
     | Option.some w => pyEq kv.2 w
     | Option.none => false) && pyEqDict rest ys
end

/-- Python `key in container` for a string key: dict key test, substring test
on strings, `==`-membership on lists; `TypeError` otherwise. -/
def pyContains (c : PyVal) (key : String) : Except String Bool :=
  match c with
  | .dict xs => .ok (alookup xs key).isSome
  | .str s => .ok ((s.splitOn key).length != 1)
  | .list xs => .ok (xs.any (fun v => pyEq v (.str key)))
  | _ => .error "TypeError: argument is not a container"

/-- Python `container[key]` for a string key: dict lookup (`KeyError` when
absent); strings and lists demand integer indices (`TypeError`). -/
def pySubscript (c : PyVal) (key : String) : Except String PyVal :=
  match c with
  | .dict xs =>
    match alookup xs key with
    | Option.some v => .ok v
    | Option.none => .error "KeyError"
  | _ => .error "TypeError: indices must be integers"

/-- Python `d.get(key, fallback)`; only dicts have `.get` (`AttributeError`). -/
def pyGet (c : PyVal) (key : String) (fallback : PyVal) : Except String PyVal :=
  match c with
  | .dict xs => .ok ((alookup xs key).getD fallback)
  | _ => .error "AttributeError: object has no attribute get"

/-- Python iteration `for x in v`: lists yield elements, dicts yield keys,
strings yield one-character strings; `TypeError` otherwise. -/
def pyIter (v : PyVal) : Except String (List PyVal) :=
  match v with
  | .list xs => .ok xs
  | .dict xs => .ok (xs.map (fun kv => .str kv.1))
  | .str s => .ok (s.toList.map (fun ch => .str (String.singleton ch)))
  | _ => .error "TypeError: object is not iterable"

/-- Python `len(v)` for containers. -/
def pyLen (v : PyVal) : Except String Nat :=
  match v with
  | .list xs => .ok xs.length
  | .str s => .ok s.length
  | .dict xs => .ok xs.length
  | _ => .error "TypeError: object has no len"

/-!
### Embedding of `services/config.py`
-/

/-- Python type tags appearing in the validation schemas. -/
inductive PyTy where
  | int : PyTy
  | str : PyTy
  | bool : PyTy
  | list : PyTy
deriving DecidableEq, Repr

/-- Python `isinstance(v, t)`; note that `bool` is a subclass of `int` in
Python, so a `bool` value satisfies an `int` check. -/
def isinst : PyVal → PyTy → Bool
  | .int _, .int => true
  | .bool _, .int => true
  | .bool _, .bool => true
  | .str _, .str => true
  | .list _, .list => true
  | _, _ => false

/-- `is_valid_type(value, expected_type, allow_none)` from `services/config.py`. -/
def is_valid_type (value : PyVal) (expected : PyTy) (allow_none : Bool) : Bool :=
  match value with
  | .none => allow_none
  | v => isinst v expected

/-- `DEFAULT_PROFILE(user_id)` from `services/config.py` (dict in source order). -/
def DEFAULT_PROFILE (user_id : Int) : List (String × PyVal) :=
  [("MIN_PRICE", .int 5000),
   ("MAX_PRICE", .int 10000),
   ("MIN_SUPPLY", .int 1000),
   ("MAX_SUPPLY", .int 10000),
   ("LIMIT", .int 1000000),
   ("COUNT", .int 5),
   ("TARGET_USER_ID", .int user_id),
   ("TARGET_CHAT_ID", PyVal.none),
   ("BOUGHT", .int 0),
   ("SPENT", .int 0),
   ("DONE", .bool false)]

/-- `DEFAULT_CONFIG(user_id)` from `services/config.py`. -/
def DEFAULT_CONFIG (user_id : Int) : List (String × PyVal) :=
  [("BALANCE", .int 0),
   ("ACTIVE", .bool false),
   ("LAST_MENU_MESSAGE_ID", PyVal.none),
   ("PROFILES", .list [.dict (DEFAULT_PROFILE user_id)])]

/-- `PROFILE_TYPES`: per-field expected type and whether `None` is allowed. -/
def PROFILE_TYPES : List (String × PyTy × Bool) :=
  [("MIN_PRICE", PyTy.int, false),
   ("MAX_PRICE", PyTy.int, false),
   ("MIN_SUPPLY", PyTy.int, false),
   ("MAX_SUPPLY", PyTy.int, false),
   ("LIMIT", PyTy.int, false),
   ("COUNT", PyTy.int, false),
   ("TARGET_USER_ID", PyTy.int, true),
   ("TARGET_CHAT_ID", PyTy.str, true),
   ("BOUGHT", PyTy.int, false),
   ("SPENT", PyTy.int, false),
   ("DONE", PyTy.bool, false)]

/-- `CONFIG_TYPES`: schema of the top-level configuration fields. -/
def CONFIG_TYPES : List (String × PyTy × Bool) :=
  [("BALANCE", PyTy.int, false),
   ("ACTIVE", PyTy.bool, false),
   ("LAST_MENU_MESSAGE_ID", PyTy.int, true),
   ("PROFILES", PyTy.list, false)]

/-- Left-to-right effectful map over a list in the `Except` monad, stopping at
the first error: the iteration order of the Python `for` loops that build the
validated dictionaries. -/
def exceptMapM (f : α → Except String β) : List α → Except String (List β)
  | [] => .ok []
  | a :: as =>
    match f a with
    | .error e => .error e
    | .ok b =>
      match exceptMapM f as with
      | .error e => .error e
      | .ok bs => .ok (b :: bs)

/-- Defaults lookup `default[key]` on the concrete default dictionaries (the
key is always present there, so the `.getD` fallback is never reached). -/
def dget (xs : List (String × PyVal)) (key : String) : PyVal :=
  (alookup xs key).getD PyVal.none

/-- The shared loop body of `validate_profile` and of `validate_config`'s
non-`"PROFILES"` branch: `if key not in src or not is_valid_type(src[key], …):
valid[key] = default[key] else valid[key] = src[key]`. -/
def validateField (src : PyVal) (dflt : List (String × PyVal))
    (kta : String × PyTy × Bool) : Except String (String × PyVal) :=
  match pyContains src kta.1 with
  | .error e => .error e
  | .ok contained =>
    if contained then
      match pySubscript src kta.1 with
      | .error e => .error e
      | .ok v =>
        if is_valid_type v kta.2.1 kta.2.2 then .ok (kta.1, v)
        else .ok (kta.1, dget dflt kta.1)
    else .ok (kta.1, dget dflt kta.1)

/-- `validate_profile(profile, user_id)` from `services/config.py`: each
schema field is kept when present and type-valid, otherwise replaced by the
default (`DEFAULT_PROFILE(user_id or 0)`; for an `Int` argument `user_id or 0`
equals `user_id`, so only `None ↦ 0` matters). -/
def validate_profile (profile : PyVal) (user_id : Option Int) : Except String PyVal :=
  match exceptMapM (validateField profile (DEFAULT_PROFILE (user_id.getD 0)))
      PROFILE_TYPES with
  | .error e => .error e
  | .ok entries => .ok (.dict entries)

/-- One iteration of the `validate_config` loop (`services/config.py` lines
128-142): top-level fields follow the same keep-or-default rule; the
`"PROFILES"` key validates every profile of `config.get("PROFILES", [])` and
substitutes a single default profile when the validated list is empty. -/
def validateConfigField (config : PyVal) (user_id : Int)
    (kta : String × PyTy × Bool) : Except String (String × PyVal) :=
  if kta.1 = "PROFILES" then
    match pyGet config "PROFILES" (.list []) with
    | .error e => .error e
    | .ok profilesVal =>
      match pyIter profilesVal with
      | .error e => .error e
      | .ok items =>
        match exceptMapM (fun pr => validate_profile pr (Option.some user_id)) items with
        | .error e => .error e
        | .ok vps =>
          .ok ("PROFILES",
            .list (if vps.isEmpty then [.dict (DEFAULT_PROFILE user_id)] else vps))
  else validateField config (DEFAULT_CONFIG user_id) kta

/-- Top-level assembly of `validate_config`. -/
def validate_config (config : PyVal) (user_id : Int) : Except String PyVal :=
  match exceptMapM (validateConfigField config user_id) CONFIG_TYPES with
  | .error e => .error e
  | .ok entries => .ok (.dict entries)

/-- `get_valid_config(user_id)` from `services/config.py`, with the stored
file content passed explicitly: loads, validates, and reports whether the
validated object was written back (`validated != config` under Python `==`).
Returns the validated configuration together with that write-back flag. -/
def get_valid_config (stored : PyVal) (user_id : Int) : Except String (PyVal × Bool) :=
  match validate_config stored user_id with
  | .error e => .error e
  | .ok validated => .ok (validated, !(pyEq validated stored))

/-- The `profile_keys` list of `migrate_config_if_needed`. -/
def legacy_profile_keys : List String :=
  ["MIN_PRICE", "MAX_PRICE", "MIN_SUPPLY", "MAX_SUPPLY",
   "COUNT", "LIMIT", "TARGET_USER_ID", "TARGET_CHAT_ID",
   "BOUGHT", "SPENT", "DONE"]

/-- The `for key in profile_keys: if key in config: profile[key] = config[key]`
loop of `migrate_config_if_needed`, building the legacy profile dict. -/
def buildLegacyProfile (config : PyVal) :
    List String → List (String × PyVal) → Except String (List (String × PyVal))
  | [], acc => .ok acc
  | key :: rest, acc =>
    match pyContains config key with
    | .error e => .error e
    | .ok contained =>
      if contained then
        match pySubscript config key with
        | .error e => .error e
        | .ok v => buildLegacyProfile config rest (acc ++ [(key, v)])
      else buildLegacyProfile config rest acc

/-- `migrate_config_if_needed(user_id)` from `services/config.py`, with the
parsed stored record passed explicitly (file absence and parse corruption are
handled before this point in the source).  Returns `none` when the record
already has a `"PROFILES"` key (no rewrite), otherwise the migrated record
that is written back. -/
def migrate_config_if_needed (config : PyVal) : Except String (Option PyVal) :=
  match pyContains config "PROFILES" with
  | .error e => .error e
  | .ok hasProfiles =>
    if hasProfiles then .ok Option.none
    else
      match buildLegacyProfile config legacy_profile_keys [] with
      | .error e => .error e
      | .ok profile0 =>
        let profile1 := dsetdefault profile0 "LIMIT" (.int 1000000)
        let profile2 := dsetdefault profile1 "SPENT" (.int 0)
        let profile3 := dsetdefault profile2 "BOUGHT" (.int 0)
        let profile4 := dsetdefault profile3 "DONE" (.bool false)
        let profile5 := dsetdefault profile4 "COUNT" (.int 5)
        match pyGet config "BALANCE" (.int 0) with
        | .error e => .error e
        | .ok bal =>
          match pyGet config "ACTIVE" (.bool false) with
          | .error e => .error e
          | .ok act =>
            match pyGet config "LAST_MENU_MESSAGE_ID" PyVal.none with
            | .error e => .error e
            | .ok lmmi =>
              .ok (Option.some (.dict
                [("BALANCE", bal),
                 ("ACTIVE", act),
                 ("LAST_MENU_MESSAGE_ID", lmmi),
                 ("PROFILES", .list [.dict profile5])]))

/-- `remove_profile(config, index, user_id)` from `services/config.py`:
raises `IndexError` when the key is absent or the index is out of range, pops
the profile, and refills the list with a default profile when it became empty.
The handlers always pass a non-negative index, modelled as `Nat`. -/
def remove_profile (config : PyVal) (index : Nat) (user_id : Int) : Except String PyVal :=
  match pyContains config "PROFILES" with
  | .error e => .error e
  | .ok hasProfiles =>
    if !hasProfiles then .error "IndexError"
    else
      match pySubscript config "PROFILES" with
      | .error e => .error e
      | .ok pv =>
        match pyLen pv with
        | .error e => .error e
        | .ok n =>
          if n ≤ index then .error "IndexError"
          else
            match config, pv with
            | .dict xs, .list ps =>
              let popped := ps.eraseIdx index
              let refilled :=
                if popped.isEmpty then popped ++ [.dict (DEFAULT_PROFILE user_id)]
                else popped
              .ok (.dict (dset xs "PROFILES" (.list refilled)))
            | _, _ => .error "TypeError: pop"

/-- `on_profile_delete_final` from `handlers/handlers_wizard.py`: reloads the
validated configuration, force-clears `ACTIVE` when the profile about to be
deleted is the last one, then calls `remove_profile`. -/
def on_profile_delete_final (stored : PyVal) (idx : Nat) (user_id : Int) :
    Except String PyVal :=
  match get_valid_config stored user_id with
  | .error e => .error e
  | .ok (config, _wrote) =>
    match pySubscript config "PROFILES" with
    | .error e => .error e
    | .ok pv =>
      match pyLen pv with
      | .error e => .error e
      | .ok n =>
        let config' :=
          if n == 1 then
            match config with
            | .dict xs => PyVal.dict (dset xs "ACTIVE" (.bool false))
            | other => other
          else config
        remove_profile config' idx user_id

/-- Number of profiles in the validated form of a stored record, used to state
when the deletion handler is removing the last remaining profile. -/
def validatedProfilesLen (stored : PyVal) (user_id : Int) : Option Nat :=
  match validate_config stored user_id with
  | .ok (.dict entries) =>
    match alookup entries "PROFILES" with
    | Option.some (.list ps) => Option.some ps.length
    | _ => Option.none
  | _ => Option.none

/-- Python `str.strip()`: drop whitespace from both ends (structurally, so it
evaluates on concrete inputs). -/
def pyStrip (s : String) : String :=
  String.mk (((s.data.dropWhile Char.isWhitespace).reverse.dropWhile
    Char.isWhitespace).reverse)

/-- Python `s.startswith("@")`: the first character is `@`. -/
def pyStartsAt (s : String) : Bool :=
  match s.data with
  | [] => false
  | c :: _ => c = '@'

/-- Python `str.isdigit()` restricted to ASCII digits (the only inputs the
handler compares against). -/
def pyIsDigit (s : String) : Bool :=
  s.length != 0 && s.data.all Char.isDigit

/-- Python `int(s)` on an ASCII-digit string. -/
def pyStrToNat (s : String) : Nat :=
  s.data.foldl (fun n c => n * 10 + (c.toNat - 48)) 0

/-- The recipient-parsing logic of `step_edit_user_id` (and `step_user_id`) in
`handlers/handlers_wizard.py`: `@…` inputs are accepted only when the chat
lookup reports a channel and yield `(None, username)`; digit-only inputs yield
`(int(input), None)`; anything else is rejected (`none`).  `chat_type` is the
answer of the external `get_chat_type` call. -/
def parse_recipient (text : String) (chat_type : String) : Option (PyVal × PyVal) :=
  let user_input := pyStrip text
  if pyStartsAt user_input then
    if chat_type = "channel" then Option.some (PyVal.none, .str user_input)
    else Option.none
  else if pyIsDigit user_input then
    Option.some (.int (Int.ofNat (pyStrToNat user_input)), PyVal.none)
  else Option.none

/-- The profile mutation performed by `step_edit_user_id` once the input is
accepted: `profile["TARGET_USER_ID"] = target_user` and
`profile["TARGET_CHAT_ID"] = target_chat` on the validated profile. -/
def step_edit_user_id_apply (profile : List (String × PyVal)) (text chat_type : String) :
    Option (List (String × PyVal)) :=
  match parse_recipient text chat_type with
  | Option.none => Option.none
  | Option.some (target_user, target_chat) =>
    Option.some (dset (dset profile "TARGET_USER_ID" target_user)
      "TARGET_CHAT_ID" target_chat)

/-- Claim-side field-repair rule (the wording of C6): a stored field is kept
when present and type-valid, otherwise replaced by its default.  Used to
compare the code's validation output against the claim. -/
def claimRepairedField (stored : List (String × PyVal)) (key : String)
    (ty : PyTy) (allow_none : Bool) (dflt : PyVal) : PyVal :=
  match alookup stored key with
  | Option.some v => if is_valid_type v ty allow_none then v else dflt
  | Option.none => dflt

/-!
### Embedding of the purchase worker (`gift_purchase_worker` in `main.py`)

The worker operates on the validated configuration, whose fields it reads with
fixed keys and types; its state is modelled by records.  Python integers are
`Int`.  The external collaborators are inputs: `get_filtered_gifts` is a
function from the profile index to the gift list returned for that profile's
price/supply band this cycle (the band fields themselves only parametrise that
external query), and `buy_gift` is an oracle from the global attempt counter
to success/failure.  The worker is the sole writer of the configuration during
a cycle, so each `get_valid_config` reload returns the last state it saved;
every `save_config` call is recorded in a trace.
-/

/-- The profile fields the worker's control flow reads and writes. -/
structure WProfile where
  COUNT : Int
  LIMIT : Int
  BOUGHT : Int
  SPENT : Int
  DONE : Bool
deriving DecidableEq, Repr

instance : Inhabited WProfile := ⟨⟨0, 0, 0, 0, false⟩⟩

/-- One marketplace item as seen by the worker: identifier and price (the
sticker file id and supply do not influence control flow). -/
structure Gift where
  id : Nat
  price : Int
deriving DecidableEq, Repr

/-- The configuration state the worker manipulates. -/
structure WConfig where
  ACTIVE : Bool
  PROFILES : List WProfile
deriving DecidableEq, Repr

/-- The user-visible notices a cycle can emit. -/
inductive Msg where
  | insufficientBalance : Msg
  | profileReport : Msg
  | allComplete : Msg
deriving DecidableEq, Repr

/-- State threaded through one profile's purchasing phase: current profile,
global attempt counter, the in-memory `purchases` ledger, the cycle-wide
`any_success` flag, and the profiles saved by `save_config` so far. -/
structure PState where
  prof : WProfile
  k : Nat
  pur : List Gift
  anyS : Bool
  tr : List WProfile
deriving DecidableEq, Repr

/-- The inner `while` loop of `gift_purchase_worker` (main.py lines 111-137)
for one gift, structurally recursive on a fuel argument.  Each successful
purchase increments `BOUGHT`, so `(COUNT - BOUGHT).toNat` bounds the number of
iterations: when the fuel reaches 0 the guard `BOUGHT < COUNT` is false too,
and returning the state unchanged coincides with the loop's exit. -/
def buyGiftLoop (COUNT LIMIT price : Int) (gid : Nat) (oracle : Nat → Bool) :
    Nat → PState → PState
  | 0, s => s
  | fuel + 1, s =>
    if s.prof.BOUGHT < COUNT ∧ s.prof.SPENT + price ≤ LIMIT then
      if oracle s.k then
        let p' : WProfile :=
          { s.prof with BOUGHT := s.prof.BOUGHT + 1, SPENT := s.prof.SPENT + price }
        let s' : PState :=
          ⟨p', s.k + 1, s.pur ++ [⟨gid, price⟩], s.anyS, s.tr ++ [p']⟩
        if LIMIT ≤ p'.SPENT then s'
        else buyGiftLoop COUNT LIMIT price gid oracle fuel s'
      else { s with k := s.k + 1, anyS := false }
    else s

/-- The inner `while` loop with its sufficient fuel. -/
def buyLoop (COUNT LIMIT price : Int) (gid : Nat) (oracle : Nat → Bool)
    (s : PState) : PState :=
  buyGiftLoop COUNT LIMIT price gid oracle (COUNT - s.prof.BOUGHT).toNat s

/-- The `for gift in filtered_gifts` loop (main.py lines 104-140): runs the
purchase loop per gift and breaks once `BOUGHT ≥ COUNT` or `SPENT ≥ LIMIT`. -/
def giftsLoop (COUNT LIMIT : Int) (oracle : Nat → Bool) :
    List Gift → PState → PState
  | [], s => s
  | g :: rest, s =>
    let s' := buyLoop COUNT LIMIT g.price g.id oracle s
    if COUNT ≤ s'.prof.BOUGHT ∨ LIMIT ≤ s'.prof.SPENT then s'
    else giftsLoop COUNT LIMIT oracle rest s'

/-- Accumulator of one worker cycle: the configuration, the attempt counter,
the `progress_made` and `any_success` flags, and the trace of saved configs. -/
structure CycleAcc where
  cfg : WConfig
  k : Nat
  progressMade : Bool
  anySuccess : Bool
  tr : List WConfig
deriving DecidableEq, Repr

/-- The evaluation phase of one iteration of `for profile_index, profile in
enumerate(...)` (main.py lines 142-207), after the purchasing phase produced
state `s` from profile `p` at index `i`: either mark the profile complete
(count or limit reached), report partial progress, or fall through. -/
def profileOutcome (acc : CycleAcc) (i : Nat) (p : WProfile) (s : PState) : CycleAcc :=
  let savedCfgs := s.tr.map
    (fun q => { acc.cfg with PROFILES := acc.cfg.PROFILES.set i q })
  let madeLocalProgress := p.BOUGHT < s.prof.BOUGHT ∨ p.SPENT < s.prof.SPENT
  if (p.COUNT ≤ s.prof.BOUGHT ∨ p.LIMIT ≤ s.prof.SPENT) ∧ s.prof.DONE = false then
    let pDone := { s.prof with DONE := true }
    let cfgDone := { acc.cfg with PROFILES := acc.cfg.PROFILES.set i pDone }
    ⟨cfgDone, s.k, true, s.anyS, acc.tr ++ savedCfgs ++ [cfgDone]⟩
  else
    let cfgAfter := { acc.cfg with PROFILES := acc.cfg.PROFILES.set i s.prof }
    if (s.prof.BOUGHT < p.COUNT ∨ s.prof.SPENT < p.LIMIT) ∧ s.prof.DONE = false
        ∧ madeLocalProgress then
      ⟨cfgAfter, s.k, true, s.anyS, acc.tr ++ savedCfgs⟩
    else
      ⟨cfgAfter, s.k, acc.progressMade, s.anyS, acc.tr ++ savedCfgs⟩

/-- One iteration of the profile `for` loop assembled: skip, purchase, then
evaluate the outcome. -/
def processProfile (gifts : Nat → List Gift) (oracle : Nat → Bool)
    (acc : CycleAcc) (i : Nat) : CycleAcc :=
  let p := acc.cfg.PROFILES.getD i default
  if p.DONE then acc
  else if (gifts i).isEmpty then acc
  else profileOutcome acc i p
    (giftsLoop p.COUNT p.LIMIT oracle (gifts i) ⟨p, acc.k, [], acc.anySuccess, []⟩)

/-- The profile sweep of one cycle, started with `progress_made = False` and
`any_success = True` (main.py lines 76-77). -/
def runCycleAcc (cfg : WConfig) (gifts : Nat → List Gift) (oracle : Nat → Bool) :
    CycleAcc :=
  (List.range cfg.PROFILES.length).foldl (processProfile gifts oracle)
    ⟨cfg, 0, false, true, []⟩

/-- Result of one worker cycle: final configuration, emitted notices in
order, the configurations passed to `save_config`, and the number of
`buy_gift` calls issued. -/
structure CycleResult where
  cfg : WConfig
  msgs : List Msg
  saves : List WConfig
  attempts : Nat
deriving DecidableEq, Repr

/-- End-of-cycle decision of main.py lines 209-219: when at least one
`buy_gift` call failed and no profile made progress, force `active = false`,
save, and send the single "insufficient balance" notice. -/
def cycleFailureStep (acc : CycleAcc) : CycleResult :=
  if acc.anySuccess = false ∧ acc.progressMade = false then
    let c := { acc.cfg with ACTIVE := false }
    ⟨c, [Msg.insufficientBalance], acc.tr ++ [c], acc.k⟩
  else ⟨acc.cfg, [], acc.tr, acc.k⟩

/-- End-of-cycle decision of main.py lines 222-231: when some profile made
progress, recompute `active = not all done`, save, and send the report. -/
def cycleReportStep (acc : CycleAcc) (r1 : CycleResult) : CycleResult :=
  if acc.progressMade = true then
    let c := { r1.cfg with ACTIVE := !(r1.cfg.PROFILES.all (fun p => p.DONE)) }
    ⟨c, r1.msgs ++ [Msg.profileReport], r1.saves ++ [c], r1.attempts⟩
  else r1

/-- End-of-cycle decision of main.py lines 233-240: when every profile is done
while `active` is still true, force `active = false`, save, and send the
"all profiles complete" notice. -/
def cycleAllDoneStep (r2 : CycleResult) : CycleResult :=
  if r2.cfg.PROFILES.all (fun p => p.DONE) = true ∧ r2.cfg.ACTIVE = true then
    let c := { r2.cfg with ACTIVE := false }
    ⟨c, r2.msgs ++ [Msg.allComplete], r2.saves ++ [c], r2.attempts⟩
  else r2

/-- One full pass of the worker's `while True` body (main.py lines 66-245):
idle when `ACTIVE` is false; otherwise sweep the profiles, then apply the
end-of-cycle decisions of lines 209-240 in order. -/
def runCycle (cfg : WConfig) (gifts : Nat → List Gift) (oracle : Nat → Bool) :
    CycleResult :=
  if cfg.ACTIVE = false then ⟨cfg, [], [], 0⟩
  else
    let acc := runCycleAcc cfg gifts oracle
    cycleAllDoneStep (cycleReportStep acc (cycleFailureStep acc))

/-- Iterated worker cycles, with per-cycle inventory and oracle inputs: the
configurations reachable through the worker. -/
def runCycles (gifts : Nat → Nat → List Gift) (oracle : Nat → Nat → Bool)
    (cfg : WConfig) : Nat → WConfig
  | 0 => cfg
  | n + 1 => (runCycle (runCycles gifts oracle cfg n) (gifts n) (oracle n)).cfg

/-!
### Concrete scenarios used when settling the claims
-/

/-- C1 scenario: one profile with `count = 100`, `limit = 250`, fresh counters. -/
def c1_cfg : WConfig := ⟨true, [⟨100, 250, 0, 0, false⟩]⟩

/-- C1 scenario: the inventory always offers one item priced 100. -/
def c1_gifts : Nat → List Gift := fun _ => [⟨1, 100⟩]

/-- C1 scenario: every executor call succeeds. -/
def c1_oracle : Nat → Bool := fun _ => true

/-- C2 witness scenario: one profile with `count = 3`, large limit. -/
def c2_cfg : WConfig := ⟨true, [⟨3, 1000000, 0, 0, false⟩]⟩

/-- C2 witness scenario: constant inventory, one item priced 100. -/
def c2_gifts : Nat → List Gift := fun _ => [⟨1, 100⟩]

/-- C2 witness scenario: every executor call succeeds. -/
def c2_oracle : Nat → Bool := fun _ => true

/-- C2 witness scenario: the same inventory on every cycle. -/
def c2_giftsSeq : Nat → Nat → List Gift := fun _ _ => [⟨1, 100⟩]

/-- C2 witness scenario: every executor call of every cycle succeeds. -/
def c2_oracleSeq : Nat → Nat → Bool := fun _ _ => true

/-- C3 scenario: one active, incomplete profile. -/
def c3_cfg : WConfig := ⟨true, [⟨5, 100, 0, 0, false⟩]⟩

/-- C3 counterexample scenario: no matching inventory at all. -/
def c3_gifts_idle : Nat → List Gift := fun _ => []

/-- C3 witness scenario: available inventory, one item priced 50. -/
def c3_gifts : Nat → List Gift := fun _ => [⟨1, 50⟩]

/-- C3 scenario: every executor call fails. -/
def c3_oracle : Nat → Bool := fun _ => false

/-- C4 witness scenario: two profiles, both already done, `ACTIVE` still true. -/
def c4_cfg : WConfig := ⟨true, [⟨5, 100, 2, 40, true⟩, ⟨3, 50, 3, 30, true⟩]⟩

/-- C4 witness scenario: arbitrary inventory (irrelevant, profiles are done). -/
def c4_gifts : Nat → List Gift := fun _ => [⟨1, 10⟩]

/-- C4 witness scenario: arbitrary oracle. -/
def c4_oracle : Nat → Bool := fun _ => true

/-- C10 witness scenario: one profile with `limit = 100` and items priced
exactly 100, so one purchase brings `SPENT` to the limit with equality. -/
def c10_cfg : WConfig := ⟨true, [⟨5, 100, 0, 0, false⟩]⟩

/-- C10 witness scenario: one item priced 100. -/
def c10_gifts : Nat → List Gift := fun _ => [⟨1, 100⟩]

/-- C10 witness scenario: every executor call succeeds. -/
def c10_oracle : Nat → Bool := fun _ => true

/-- C6 counterexample: a stored profile, schema-shaped, with the out-of-range
`COUNT = -5` (the spec calls `count` a positive integer). -/
def c6_badProfile : List (String × PyVal) :=
  [("MIN_PRICE", .int 5000),
   ("MAX_PRICE", .int 10000),
   ("MIN_SUPPLY", .int 1000),
   ("MAX_SUPPLY", .int 10000),
   ("LIMIT", .int 1000000),
   ("COUNT", .int (-5)),
   ("TARGET_USER_ID", .int 7),
   ("TARGET_CHAT_ID", PyVal.none),
   ("BOUGHT", .int 0),
   ("SPENT", .int 0),
   ("DONE", .bool false)]

/-- C6 counterexample: a stored configuration whose only profile has the
out-of-range `COUNT = -5`; every field is type-correct. -/
def c6_badStored : List (String × PyVal) :=
  [("BALANCE", .int 0),
   ("ACTIVE", .bool false),
   ("LAST_MENU_MESSAGE_ID", PyVal.none),
   ("PROFILES", .list [.dict c6_badProfile])]

/-- C6 witness: a stored configuration whose `BALANCE` has the wrong type. -/
def c6_witStored : List (String × PyVal) :=
  [("BALANCE", .str "x"),
   ("ACTIVE", .bool true),
   ("LAST_MENU_MESSAGE_ID", PyVal.none),
   ("PROFILES", .list [.dict (DEFAULT_PROFILE 9)])]

/-- C7 scenario: a legacy record without `"PROFILES"`, carrying one known
legacy field and a balance. -/
def c7_rec : List (String × PyVal) :=
  [("MIN_SUPPLY", .int 777), ("BALANCE", .int 5)]

/-- C8 counterexample: a schema-shaped profile with *both* recipient fields
set; every field is type-correct. -/
def c8_bothProfile : List (String × PyVal) :=
  [("MIN_PRICE", .int 5000),
   ("MAX_PRICE", .int 10000),
   ("MIN_SUPPLY", .int 1000),
   ("MAX_SUPPLY", .int 10000),
   ("LIMIT", .int 1000000),
   ("COUNT", .int 5),
   ("TARGET_USER_ID", .int 123),
   ("TARGET_CHAT_ID", .str "@chan"),
   ("BOUGHT", .int 0),
   ("SPENT", .int 0),
   ("DONE", .bool false)]

/-- C8 witness: the default profile after the recipient edit `"123"`. -/
def c8_edited : List (String × PyVal) :=
  [("MIN_PRICE", .int 5000),
   ("MAX_PRICE", .int 10000),
   ("MIN_SUPPLY", .int 1000),
   ("MAX_SUPPLY", .int 10000),
   ("LIMIT", .int 1000000),
   ("COUNT", .int 5),
   ("TARGET_USER_ID", .int 123),
   ("TARGET_CHAT_ID", PyVal.none),
   ("BOUGHT", .int 0),
   ("SPENT", .int 0),
   ("DONE", .bool false)]

/-!
### Helper lemmas: association lists and the `Except` traversal
-/

theorem alookup_append (xs ys : List (String × PyVal)) (k : String) :
    alookup (xs ++ ys) k = (alookup xs k).or (alookup ys k) := by
  induction xs with
  | nil => simp [alookup]
  | cons kv rest ih =>
    by_cases h : k = kv.1
    · simp [alookup, h]
    · simp [alookup, h, ih]

theorem alookup_dset_self (xs : List (String × PyVal)) (k : String) (v : PyVal) :
    alookup (dset xs k v) k = Option.some v := by
  induction xs with
  | nil => simp [dset, alookup]
  | cons kv rest ih =>
    by_cases h : k = kv.1
    · simp [dset, h, alookup]
    · simp [dset, h, alookup, ih]

theorem alookup_dset_other (xs : List (String × PyVal)) (k : String) (v : PyVal)
    (k' : String) (h : k' ≠ k) :
    alookup (dset xs k v) k' = alookup xs k' := by
  induction xs with
  | nil => simp [dset, alookup, h]
  | cons kv rest ih =>
    by_cases hk : k = kv.1
    · subst hk
      simp [dset, alookup, h]
    · by_cases hk' : k' = kv.1
      · simp [dset, hk, alookup, hk']
      · simp [dset, hk, alookup, hk', ih]

theorem alookup_dsetdefault_self (xs : List (String × PyVal)) (k : String) (v : PyVal) :
    alookup (dsetdefault xs k v) k = Option.some ((alookup xs k).getD v) := by
  unfold dsetdefault
  cases h : alookup xs k with
  | some w => simp [h]
  | none => simp [h, alookup_append, alookup]

theorem alookup_dsetdefault_other (xs : List (String × PyVal)) (k : String) (v : PyVal)
    (k' : String) (h : k' ≠ k) :
    alookup (dsetdefault xs k v) k' = alookup xs k' := by
  unfold dsetdefault
  cases hs : alookup xs k with
  | some w => simp
  | none =>
    simp [alookup_append, alookup, h]

theorem exceptMapM_ok_of_forall (l : List α) (f : α → Except String β) (g : α → β)
    (h : ∀ a ∈ l, f a = .ok (g a)) :
    exceptMapM f l = .ok (l.map g) := by
  induction l with
  | nil => rfl
  | cons a as ih =>
    have ha : f a = .ok (g a) := h a (List.mem_cons_self a as)
    have hrest := ih (fun b hb => h b (List.mem_cons_of_mem a hb))
    simp [exceptMapM, ha, hrest]

theorem exceptMapM_forall₂ (l : List α) (f : α → Except String β) (bs : List β)
    (h : exceptMapM f l = .ok bs) :
    List.Forall₂ (fun a b => f a = .ok b) l bs := by
  induction l generalizing bs with
  | nil =>
    simp only [exceptMapM] at h
    cases h
    exact List.Forall₂.nil
  | cons a as ih =>
    simp only [exceptMapM] at h
    cases ha : f a with
    | error e => rw [ha] at h; cases h
    | ok b =>
      rw [ha] at h
      cases hrest : exceptMapM f as with
      | error e => rw [hrest] at h; cases h
      | ok bs' =>
        rw [hrest] at h
        cases h
        exact List.Forall₂.cons ha (ih bs' hrest)

theorem buildLegacyProfile_dict (keys : List String) (xs : List (String × PyVal))
    (acc : List (String × PyVal)) :
    buildLegacyProfile (.dict xs) keys acc =
      .ok (acc ++ keys.filterMap (fun k => (alookup xs k).map (fun v => (k, v)))) := by
  induction keys generalizing acc with
  | nil => simp [buildLegacyProfile]
  | cons k rest ih =>
    cases h : alookup xs k with
    | some v =>
      simp [buildLegacyProfile, pyContains, pySubscript, h, ih]
    | none =>
      simp [buildLegacyProfile, pyContains, pySubscript, h, ih]

theorem alookup_filterMap_not_mem (keys : List String) (xs : List (String × PyVal))
    (k : String) (h : k ∉ keys) :
    alookup (keys.filterMap (fun k' => (alookup xs k').map (fun v => (k', v)))) k =
      Option.none := by
  induction keys with
  | nil => rfl
  | cons k0 rest ih =>
    have hk0 : k ≠ k0 := fun he => h (he ▸ List.mem_cons_self k0 rest)
    have hrest : k ∉ rest := fun hm => h (List.mem_cons_of_mem k0 hm)
    cases h0 : alookup xs k0 with
    | some v => simp [h0, alookup, hk0, ih hrest]
    | none => simp [h0, ih hrest]

theorem alookup_filterMap_mem (keys : List String) (xs : List (String × PyVal))
    (k : String) (h : k ∈ keys) :
    alookup (keys.filterMap (fun k' => (alookup xs k').map (fun v => (k', v)))) k =
      alookup xs k := by
  induction keys with
  | nil => cases h
  | cons k0 rest ih =>
    by_cases hk : k = k0
    · subst hk
      cases h0 : alookup xs k with
      | some v => simp [h0, alookup]
      | none =>
        by_cases hm : k ∈ rest
        · simp [h0, ih hm]
        · simp [h0, alookup_filterMap_not_mem rest xs k hm]
    · have hm : k ∈ rest := by
        rcases List.mem_cons.mp h with h' | h'
        · exact absurd h' hk
        · exact h'
      cases h0 : alookup xs k0 with
      | some v => simp [h0, alookup, hk, ih hm]
      | none => simp [h0, ih hm]


/-!
### Helper lemmas: the purchase loops

Facts about `buyGiftLoop` hold for every fuel value, so they transfer to
`buyLoop` directly.
-/

theorem buyGiftLoop_count (COUNT LIMIT price : Int) (gid : Nat) (oracle : Nat → Bool) :
    ∀ (fuel : Nat) (s : PState),
    (buyGiftLoop COUNT LIMIT price gid oracle fuel s).prof.COUNT = s.prof.COUNT := by
  intro fuel
  induction fuel with
  | zero => intro s; rfl
  | succ fuel ih =>
    intro s
    simp only [buyGiftLoop]
    split
    · split
      · split
        · rfl
        · exact ih _
      · rfl
    · rfl

theorem buyGiftLoop_limit (COUNT LIMIT price : Int) (gid : Nat) (oracle : Nat → Bool) :
    ∀ (fuel : Nat) (s : PState),
    (buyGiftLoop COUNT LIMIT price gid oracle fuel s).prof.LIMIT = s.prof.LIMIT := by
  intro fuel
  induction fuel with
  | zero => intro s; rfl
  | succ fuel ih =>
    intro s
    simp only [buyGiftLoop]
    split
    · split
      · split
        · rfl
        · exact ih _
      · rfl
    · rfl

theorem buyGiftLoop_done (COUNT LIMIT price : Int) (gid : Nat) (oracle : Nat → Bool) :
    ∀ (fuel : Nat) (s : PState),
    (buyGiftLoop COUNT LIMIT price gid oracle fuel s).prof.DONE = s.prof.DONE := by
  intro fuel
  induction fuel with
  | zero => intro s; rfl
  | succ fuel ih =>
    intro s
    simp only [buyGiftLoop]
    split
    · split
      · split
        · rfl
        · exact ih _
      · rfl
    · rfl

theorem buyGiftLoop_bought_le (COUNT LIMIT price : Int) (gid : Nat) (oracle : Nat → Bool) :
    ∀ (fuel : Nat) (s : PState), s.prof.BOUGHT ≤ COUNT →
    (buyGiftLoop COUNT LIMIT price gid oracle fuel s).prof.BOUGHT ≤ COUNT := by
  intro fuel
  induction fuel with
  | zero => intro s h; exact h
  | succ fuel ih =>
    intro s h
    simp only [buyGiftLoop]
    split
    · next hg =>
      split
      · split
        · show s.prof.BOUGHT + 1 ≤ COUNT
          omega
        · exact ih _ (by show s.prof.BOUGHT + 1 ≤ COUNT; omega)
      · exact h
    · exact h

theorem buyGiftLoop_spent_le (COUNT LIMIT price : Int) (gid : Nat) (oracle : Nat → Bool) :
    ∀ (fuel : Nat) (s : PState), s.prof.SPENT ≤ LIMIT →
    (buyGiftLoop COUNT LIMIT price gid oracle fuel s).prof.SPENT ≤ LIMIT := by
  intro fuel
  induction fuel with
  | zero => intro s h; exact h
  | succ fuel ih =>
    intro s h
    simp only [buyGiftLoop]
    split
    · next hg =>
      split
      · split
        · show s.prof.SPENT + price ≤ LIMIT
          exact hg.2
        · exact ih _ (by show s.prof.SPENT + price ≤ LIMIT; exact hg.2)
      · exact h
    · exact h

theorem buyGiftLoop_tr (COUNT LIMIT price : Int) (gid : Nat) (oracle : Nat → Bool) :
    ∀ (fuel : Nat) (s : PState),
    ∀ q ∈ (buyGiftLoop COUNT LIMIT price gid oracle fuel s).tr, q ∈ s.tr ∨
      (q.COUNT = s.prof.COUNT ∧ q.LIMIT = s.prof.LIMIT ∧ q.DONE = s.prof.DONE ∧
        q.BOUGHT ≤ COUNT ∧ q.SPENT ≤ LIMIT) := by
  intro fuel
  induction fuel with
  | zero => intro s q hq; exact Or.inl hq
  | succ fuel ih =>
    intro s q hq
    simp only [buyGiftLoop] at hq
    split at hq
    · next hg =>
      split at hq
      · split at hq
        · rcases List.mem_append.mp hq with h | h
          · exact Or.inl h
          · rcases List.mem_singleton.mp h with rfl
            exact Or.inr ⟨rfl, rfl, rfl, by show s.prof.BOUGHT + 1 ≤ COUNT; omega,
              by show s.prof.SPENT + price ≤ LIMIT; exact hg.2⟩
        · rcases ih _ q hq with h | h
          · rcases List.mem_append.mp h with h' | h'
            · exact Or.inl h'
            · rcases List.mem_singleton.mp h' with rfl
              exact Or.inr ⟨rfl, rfl, rfl, by show s.prof.BOUGHT + 1 ≤ COUNT; omega,
                by show s.prof.SPENT + price ≤ LIMIT; exact hg.2⟩
          · exact Or.inr h
      · exact Or.inl hq
    · exact Or.inl hq

theorem buyGiftLoop_change (COUNT LIMIT price : Int) (gid : Nat) (oracle : Nat → Bool) :
    ∀ (fuel : Nat) (s : PState),
    ((buyGiftLoop COUNT LIMIT price gid oracle fuel s).prof = s.prof ∧
      (buyGiftLoop COUNT LIMIT price gid oracle fuel s).tr = s.tr) ∨
      s.prof.BOUGHT < (buyGiftLoop COUNT LIMIT price gid oracle fuel s).prof.BOUGHT := by
  intro fuel
  induction fuel with
  | zero => intro s; exact Or.inl ⟨rfl, rfl⟩
  | succ fuel ih =>
    intro s
    simp only [buyGiftLoop]
    split
    · split
      · split
        · exact Or.inr (by show s.prof.BOUGHT < s.prof.BOUGHT + 1; omega)
        · rcases ih _ with ⟨h1, _⟩ | hlt
          · rw [h1]
            exact Or.inr (by show s.prof.BOUGHT < s.prof.BOUGHT + 1; omega)
          · exact Or.inr (lt_trans
              (by show s.prof.BOUGHT < s.prof.BOUGHT + 1; omega) hlt)
      · exact Or.inl ⟨rfl, rfl⟩
    · exact Or.inl ⟨rfl, rfl⟩

theorem buyLoop_count (COUNT LIMIT price : Int) (gid : Nat) (oracle : Nat → Bool)
    (s : PState) :
    (buyLoop COUNT LIMIT price gid oracle s).prof.COUNT = s.prof.COUNT :=
  buyGiftLoop_count COUNT LIMIT price gid oracle _ s

theorem buyLoop_limit (COUNT LIMIT price : Int) (gid : Nat) (oracle : Nat → Bool)
    (s : PState) :
    (buyLoop COUNT LIMIT price gid oracle s).prof.LIMIT = s.prof.LIMIT :=
  buyGiftLoop_limit COUNT LIMIT price gid oracle _ s

theorem buyLoop_done (COUNT LIMIT price : Int) (gid : Nat) (oracle : Nat → Bool)
    (s : PState) :
    (buyLoop COUNT LIMIT price gid oracle s).prof.DONE = s.prof.DONE :=
  buyGiftLoop_done COUNT LIMIT price gid oracle _ s

theorem buyLoop_bought_le (COUNT LIMIT price : Int) (gid : Nat) (oracle : Nat → Bool)
    (s : PState) (h : s.prof.BOUGHT ≤ COUNT) :
    (buyLoop COUNT LIMIT price gid oracle s).prof.BOUGHT ≤ COUNT :=
  buyGiftLoop_bought_le COUNT LIMIT price gid oracle _ s h

theorem buyLoop_spent_le (COUNT LIMIT price : Int) (gid : Nat) (oracle : Nat → Bool)
    (s : PState) (h : s.prof.SPENT ≤ LIMIT) :
    (buyLoop COUNT LIMIT price gid oracle s).prof.SPENT ≤ LIMIT :=
  buyGiftLoop_spent_le COUNT LIMIT price gid oracle _ s h

theorem buyLoop_tr (COUNT LIMIT price : Int) (gid : Nat) (oracle : Nat → Bool)
    (s : PState) :
    ∀ q ∈ (buyLoop COUNT LIMIT price gid oracle s).tr, q ∈ s.tr ∨
      (q.COUNT = s.prof.COUNT ∧ q.LIMIT = s.prof.LIMIT ∧ q.DONE = s.prof.DONE ∧
        q.BOUGHT ≤ COUNT ∧ q.SPENT ≤ LIMIT) :=
  buyGiftLoop_tr COUNT LIMIT price gid oracle _ s

theorem buyLoop_change (COUNT LIMIT price : Int) (gid : Nat) (oracle : Nat → Bool)
    (s : PState) :
    ((buyLoop COUNT LIMIT price gid oracle s).prof = s.prof ∧
      (buyLoop COUNT LIMIT price gid oracle s).tr = s.tr) ∨
      s.prof.BOUGHT < (buyLoop COUNT LIMIT price gid oracle s).prof.BOUGHT :=
  buyGiftLoop_change COUNT LIMIT price gid oracle _ s

theorem giftsLoop_count (COUNT LIMIT : Int) (oracle : Nat → Bool) :
    ∀ (gs : List Gift) (s : PState),
    (giftsLoop COUNT LIMIT oracle gs s).prof.COUNT = s.prof.COUNT := by
  intro gs
  induction gs with
  | nil => intro s; rfl
  | cons g rest ih =>
    intro s
    simp only [giftsLoop]
    split
    · exact buyLoop_count COUNT LIMIT g.price g.id oracle s
    · rw [ih _, buyLoop_count]

theorem giftsLoop_limit (COUNT LIMIT : Int) (oracle : Nat → Bool) :
    ∀ (gs : List Gift) (s : PState),
    (giftsLoop COUNT LIMIT oracle gs s).prof.LIMIT = s.prof.LIMIT := by
  intro gs
  induction gs with
  | nil => intro s; rfl
  | cons g rest ih =>
    intro s
    simp only [giftsLoop]
    split
    · exact buyLoop_limit COUNT LIMIT g.price g.id oracle s
    · rw [ih _, buyLoop_limit]

theorem giftsLoop_done (COUNT LIMIT : Int) (oracle : Nat → Bool) :
    ∀ (gs : List Gift) (s : PState),
    (giftsLoop COUNT LIMIT oracle gs s).prof.DONE = s.prof.DONE := by
  intro gs
  induction gs with
  | nil => intro s; rfl
  | cons g rest ih =>
    intro s
    simp only [giftsLoop]
    split
    · exact buyLoop_done COUNT LIMIT g.price g.id oracle s
    · rw [ih _, buyLoop_done]

theorem giftsLoop_bought_le (COUNT LIMIT : Int) (oracle : Nat → Bool) :
    ∀ (gs : List Gift) (s : PState), s.prof.BOUGHT ≤ COUNT →
    (giftsLoop COUNT LIMIT oracle gs s).prof.BOUGHT ≤ COUNT := by
  intro gs
  induction gs with
  | nil => intro s h; exact h
  | cons g rest ih =>
    intro s h
    simp only [giftsLoop]
    split
    · exact buyLoop_bought_le COUNT LIMIT g.price g.id oracle s h
    · exact ih _ (buyLoop_bought_le COUNT LIMIT g.price g.id oracle s h)

theorem giftsLoop_spent_le (COUNT LIMIT : Int) (oracle : Nat → Bool) :
    ∀ (gs : List Gift) (s : PState), s.prof.SPENT ≤ LIMIT →
    (giftsLoop COUNT LIMIT oracle gs s).prof.SPENT ≤ LIMIT := by
  intro gs
  induction gs with
  | nil => intro s h; exact h
  | cons g rest ih =>
    intro s h
    simp only [giftsLoop]
    split
    · exact buyLoop_spent_le COUNT LIMIT g.price g.id oracle s h
    · exact ih _ (buyLoop_spent_le COUNT LIMIT g.price g.id oracle s h)

theorem giftsLoop_tr (COUNT LIMIT : Int) (oracle : Nat → Bool) :
    ∀ (gs : List Gift) (s : PState),
    ∀ q ∈ (giftsLoop COUNT LIMIT oracle gs s).tr, q ∈ s.tr ∨
      (q.COUNT = s.prof.COUNT ∧ q.LIMIT = s.prof.LIMIT ∧ q.DONE = s.prof.DONE ∧
        q.BOUGHT ≤ COUNT ∧ q.SPENT ≤ LIMIT) := by
  intro gs
  induction gs with
  | nil => intro s q hq; exact Or.inl hq
  | cons g rest ih =>
    intro s q hq
    simp only [giftsLoop] at hq
    split at hq
    · exact buyLoop_tr COUNT LIMIT g.price g.id oracle s q hq
    · rcases ih _ q hq with h | h
      · exact buyLoop_tr COUNT LIMIT g.price g.id oracle s q h
      · refine Or.inr ?_
        rw [buyLoop_count] at h
        rw [buyLoop_limit] at h
        rw [buyLoop_done] at h
        exact h

theorem giftsLoop_change (COUNT LIMIT : Int) (oracle : Nat → Bool) :
    ∀ (gs : List Gift) (s : PState),
    ((giftsLoop COUNT LIMIT oracle gs s).prof = s.prof ∧
      (giftsLoop COUNT LIMIT oracle gs s).tr = s.tr) ∨
      s.prof.BOUGHT < (giftsLoop COUNT LIMIT oracle gs s).prof.BOUGHT := by
  intro gs
  induction gs with
  | nil => intro s; exact Or.inl ⟨rfl, rfl⟩
  | cons g rest ih =>
    intro s
    simp only [giftsLoop]
    split
    · exact buyLoop_change COUNT LIMIT g.price g.id oracle s
    · rcases buyLoop_change COUNT LIMIT g.price g.id oracle s with ⟨h1, h2⟩ | hlt
      · rcases ih (buyLoop COUNT LIMIT g.price g.id oracle s) with ⟨h1', h2'⟩ | hlt'
        · exact Or.inl ⟨h1'.trans h1, h2'.trans h2⟩
        · rw [h1] at hlt'
          exact Or.inr hlt'
      · rcases ih (buyLoop COUNT LIMIT g.price g.id oracle s) with ⟨h1', _⟩ | hlt'
        · rw [h1']
          exact Or.inr hlt
        · exact Or.inr (lt_trans hlt hlt')

theorem set_forall {α : Type} (l : List α) (i : Nat) (x : α) (P : α → Prop)
    (hl : ∀ p ∈ l, P p) (hx : P x) : ∀ p ∈ l.set i x, P p := by
  intro p hp
  rcases List.mem_or_eq_of_mem_set hp with h | h
  · exact hl p h
  · subst h; exact hx

theorem getD_mem_or_default (l : List WProfile) (i : Nat) :
    l.getD i default ∈ l ∨ l.getD i default = default := by
  by_cases h : i < l.length
  · left
    rw [List.getD_eq_getElem?_getD, List.getElem?_eq_getElem h]
    exact List.getElem_mem h
  · right
    rw [List.getD_eq_getElem?_getD, List.getElem?_eq_none (le_of_not_lt h)]
    rfl

theorem set_getD_self (l : List WProfile) (i : Nat) (h : i < l.length) :
    l.set i (l.getD i default) = l := by
  apply List.ext_getElem (by simp)
  intro n h1 h2
  rw [List.getElem_set]
  split
  · next hn =>
    subst hn
    rw [List.getD_eq_getElem?_getD, List.getElem?_eq_getElem h]
    rfl
  · rfl

theorem profileOutcome_active (acc : CycleAcc) (i : Nat) (p : WProfile) (s : PState) :
    (profileOutcome acc i p s).cfg.ACTIVE = acc.cfg.ACTIVE := by
  simp only [profileOutcome]
  split
  · rfl
  · split
    · rfl
    · rfl

theorem profileOutcome_length (acc : CycleAcc) (i : Nat) (p : WProfile) (s : PState) :
    (profileOutcome acc i p s).cfg.PROFILES.length = acc.cfg.PROFILES.length := by
  simp only [profileOutcome]
  split
  · exact List.length_set acc.cfg.PROFILES i _
  · split
    · exact List.length_set acc.cfg.PROFILES i _
    · exact List.length_set acc.cfg.PROFILES i _

theorem profileOutcome_progress_mono (acc : CycleAcc) (i : Nat) (p : WProfile)
    (s : PState) (h : acc.progressMade = true) :
    (profileOutcome acc i p s).progressMade = true := by
  simp only [profileOutcome]
  split
  · rfl
  · split
    · rfl
    · exact h

theorem profileOutcome_inv (acc : CycleAcc) (i : Nat) (p : WProfile) (s : PState)
    (P : WProfile → Prop)
    (hP : ∀ q ∈ acc.cfg.PROFILES, P q) (hsp : P s.prof)
    (hPDone : ∀ q, P q → P { q with DONE := true }) (htr : ∀ q ∈ s.tr, P q) :
    (∀ q ∈ (profileOutcome acc i p s).cfg.PROFILES, P q) ∧
    (∀ c ∈ (profileOutcome acc i p s).tr, c ∈ acc.tr ∨ ∀ q ∈ c.PROFILES, P q) := by
  have hsaved : ∀ c ∈ s.tr.map
      (fun q => { acc.cfg with PROFILES := acc.cfg.PROFILES.set i q }), c ∈ acc.tr ∨
      ∀ q ∈ c.PROFILES, P q := by
    intro c hc
    rcases List.mem_map.mp hc with ⟨q, hq, rfl⟩
    exact Or.inr (set_forall _ i q P hP (htr q hq))
  simp only [profileOutcome]
  split
  · constructor
    · exact set_forall _ i _ P hP (hPDone _ hsp)
    · intro c hc
      rcases List.mem_append.mp hc with hc' | hc'
      · rcases List.mem_append.mp hc' with hc'' | hc''
        · exact Or.inl hc''
        · exact hsaved c hc''
      · rcases List.mem_singleton.mp hc' with rfl
        exact Or.inr (set_forall _ i _ P hP (hPDone _ hsp))
  · split
    · constructor
      · exact set_forall _ i _ P hP hsp
      · intro c hc
        rcases List.mem_append.mp hc with hc' | hc'
        · exact Or.inl hc'
        · exact hsaved c hc'
    · constructor
      · exact set_forall _ i _ P hP hsp
      · intro c hc
        rcases List.mem_append.mp hc with hc' | hc'
        · exact Or.inl hc'
        · exact hsaved c hc'

theorem profileOutcome_no_progress (acc : CycleAcc) (i : Nat) (p : WProfile)
    (s : PState)
    (hch : (s.prof = p ∧ s.tr = []) ∨ p.BOUGHT < s.prof.BOUGHT)
    (hdone : s.prof.DONE = false)
    (hp : acc.cfg.PROFILES.getD i default = p)
    (h : (profileOutcome acc i p s).progressMade = false) :
    acc.progressMade = false ∧
    (i < acc.cfg.PROFILES.length → (profileOutcome acc i p s).cfg = acc.cfg) ∧
    (profileOutcome acc i p s).tr = acc.tr := by
  simp only [profileOutcome] at h ⊢
  split at h
  · cases h
  · next h147 =>
    split at h
    · cases h
    · next h181 =>
      have hBC : s.prof.BOUGHT < p.COUNT ∧ s.prof.SPENT < p.LIMIT := by
        rcases not_and_or.mp h147 with h' | h'
        · constructor
          · by_contra hb
            exact h' (Or.inl (le_of_not_lt hb))
          · by_contra hb
            exact h' (Or.inr (le_of_not_lt hb))
        · exact absurd hdone h'
      have hnm : ¬ (p.BOUGHT < s.prof.BOUGHT ∨ p.SPENT < s.prof.SPENT) := by
        intro hm
        exact h181 ⟨Or.inl hBC.1, hdone, hm⟩
      rcases hch with ⟨hse, hte⟩ | hlt
      · rw [if_neg h147, if_neg h181]
        refine ⟨h, ?_, ?_⟩
        · intro hi
          show WConfig.mk acc.cfg.ACTIVE (acc.cfg.PROFILES.set i s.prof) = acc.cfg
          rw [hse, ← hp, set_getD_self _ _ hi]
        · show acc.tr ++ List.map _ s.tr = acc.tr
          rw [hte]
          simp
      · exact absurd (Or.inl hlt) hnm

theorem processProfile_active (gifts : Nat → List Gift) (oracle : Nat → Bool)
    (acc : CycleAcc) (i : Nat) :
    (processProfile gifts oracle acc i).cfg.ACTIVE = acc.cfg.ACTIVE := by
  simp only [processProfile]
  split
  · rfl
  · split
    · rfl
    · exact profileOutcome_active acc i _ _

theorem processProfile_length (gifts : Nat → List Gift) (oracle : Nat → Bool)
    (acc : CycleAcc) (i : Nat) :
    (processProfile gifts oracle acc i).cfg.PROFILES.length =
      acc.cfg.PROFILES.length := by
  simp only [processProfile]
  split
  · rfl
  · split
    · rfl
    · exact profileOutcome_length acc i _ _

theorem processProfile_progress_mono (gifts : Nat → List Gift) (oracle : Nat → Bool)
    (acc : CycleAcc) (i : Nat) (h : acc.progressMade = true) :
    (processProfile gifts oracle acc i).progressMade = true := by
  simp only [processProfile]
  split
  · exact h
  · split
    · exact h
    · exact profileOutcome_progress_mono acc i _ _ h

theorem processProfile_skip (gifts : Nat → List Gift) (oracle : Nat → Bool)
    (acc : CycleAcc) (i : Nat)
    (h : (acc.cfg.PROFILES.getD i default).DONE = true) :
    processProfile gifts oracle acc i = acc := by
  simp only [processProfile]
  rw [if_pos h]

theorem processProfile_bought_inv (gifts : Nat → List Gift) (oracle : Nat → Bool)
    (acc : CycleAcc) (i : Nat)
    (hP : ∀ q ∈ acc.cfg.PROFILES, q.BOUGHT ≤ q.COUNT) :
    (∀ q ∈ (processProfile gifts oracle acc i).cfg.PROFILES, q.BOUGHT ≤ q.COUNT) ∧
    (∀ c ∈ (processProfile gifts oracle acc i).tr, c ∈ acc.tr ∨
      ∀ q ∈ c.PROFILES, q.BOUGHT ≤ q.COUNT) := by
  have hp0 : (acc.cfg.PROFILES.getD i default).BOUGHT ≤
      (acc.cfg.PROFILES.getD i default).COUNT := by
    rcases getD_mem_or_default acc.cfg.PROFILES i with h | h
    · exact hP _ h
    · rw [h]; decide
  simp only [processProfile]
  split
  · exact ⟨hP, fun c hc => Or.inl hc⟩
  · split
    · exact ⟨hP, fun c hc => Or.inl hc⟩
    · apply profileOutcome_inv
      · exact hP
      · rw [giftsLoop_count]
        exact giftsLoop_bought_le (acc.cfg.PROFILES.getD i default).COUNT
          (acc.cfg.PROFILES.getD i default).LIMIT oracle (gifts i)
          ⟨acc.cfg.PROFILES.getD i default, acc.k, [], acc.anySuccess, []⟩ hp0
      · exact fun q h => h
      · intro q hq
        rcases giftsLoop_tr (acc.cfg.PROFILES.getD i default).COUNT
            (acc.cfg.PROFILES.getD i default).LIMIT oracle (gifts i)
            ⟨acc.cfg.PROFILES.getD i default, acc.k, [], acc.anySuccess, []⟩ q hq with
          h | ⟨hc, _, _, hb, _⟩
        · cases h
        · rw [hc]
          exact hb

theorem processProfile_spent_inv (gifts : Nat → List Gift) (oracle : Nat → Bool)
    (acc : CycleAcc) (i : Nat)
    (hP : ∀ q ∈ acc.cfg.PROFILES, q.SPENT ≤ q.LIMIT) :
    (∀ q ∈ (processProfile gifts oracle acc i).cfg.PROFILES, q.SPENT ≤ q.LIMIT) ∧
    (∀ c ∈ (processProfile gifts oracle acc i).tr, c ∈ acc.tr ∨
      ∀ q ∈ c.PROFILES, q.SPENT ≤ q.LIMIT) := by
  have hp0 : (acc.cfg.PROFILES.getD i default).SPENT ≤
      (acc.cfg.PROFILES.getD i default).LIMIT := by
    rcases getD_mem_or_default acc.cfg.PROFILES i with h | h
    · exact hP _ h
    · rw [h]; decide
  simp only [processProfile]
  split
  · exact ⟨hP, fun c hc => Or.inl hc⟩
  · split
    · exact ⟨hP, fun c hc => Or.inl hc⟩
    · apply profileOutcome_inv
      · exact hP
      · rw [giftsLoop_limit]
        exact giftsLoop_spent_le (acc.cfg.PROFILES.getD i default).COUNT
          (acc.cfg.PROFILES.getD i default).LIMIT oracle (gifts i)
          ⟨acc.cfg.PROFILES.getD i default, acc.k, [], acc.anySuccess, []⟩ hp0
      · exact fun q h => h
      · intro q hq
        rcases giftsLoop_tr (acc.cfg.PROFILES.getD i default).COUNT
            (acc.cfg.PROFILES.getD i default).LIMIT oracle (gifts i)
            ⟨acc.cfg.PROFILES.getD i default, acc.k, [], acc.anySuccess, []⟩ q hq with
          h | ⟨_, hl, _, _, hs⟩
        · cases h
        · rw [hl]
          exact hs

theorem processProfile_no_progress (gifts : Nat → List Gift) (oracle : Nat → Bool)
    (acc : CycleAcc) (i : Nat)
    (h : (processProfile gifts oracle acc i).progressMade = false) :
    acc.progressMade = false ∧
    (i < acc.cfg.PROFILES.length → (processProfile gifts oracle acc i).cfg = acc.cfg) ∧
    (processProfile gifts oracle acc i).tr = acc.tr := by
  simp only [processProfile] at h ⊢
  split at h
  · next hd => rw [if_pos hd]; exact ⟨h, fun _ => rfl, rfl⟩
  · next hd =>
    split at h
    · next he => rw [if_neg hd, if_pos he]; exact ⟨h, fun _ => rfl, rfl⟩
    · next he =>
      rw [if_neg hd, if_neg he]
      apply profileOutcome_no_progress
      · rcases giftsLoop_change (acc.cfg.PROFILES.getD i default).COUNT
            (acc.cfg.PROFILES.getD i default).LIMIT oracle (gifts i)
            ⟨acc.cfg.PROFILES.getD i default, acc.k, [], acc.anySuccess, []⟩ with
          ⟨h1, h2⟩ | hlt
        · exact Or.inl ⟨h1, h2⟩
        · exact Or.inr hlt
      · rw [giftsLoop_done]
        show (acc.cfg.PROFILES.getD i default).DONE = false
        exact Bool.not_eq_true _ ▸ hd
      · rfl
      · exact h

theorem foldl_active (gifts : Nat → List Gift) (oracle : Nat → Bool) :
    ∀ (idxs : List Nat) (acc : CycleAcc),
    ((idxs).foldl (processProfile gifts oracle) acc).cfg.ACTIVE = acc.cfg.ACTIVE := by
  intro idxs
  induction idxs with
  | nil => intro acc; rfl
  | cons i rest ih =>
    intro acc
    rw [List.foldl_cons, ih, processProfile_active]

theorem foldl_length (gifts : Nat → List Gift) (oracle : Nat → Bool) :
    ∀ (idxs : List Nat) (acc : CycleAcc),
    ((idxs).foldl (processProfile gifts oracle) acc).cfg.PROFILES.length =
      acc.cfg.PROFILES.length := by
  intro idxs
  induction idxs with
  | nil => intro acc; rfl
  | cons i rest ih =>
    intro acc
    rw [List.foldl_cons, ih, processProfile_length]

theorem foldl_bought_inv (gifts : Nat → List Gift) (oracle : Nat → Bool) :
    ∀ (idxs : List Nat) (acc : CycleAcc),
    (∀ q ∈ acc.cfg.PROFILES, q.BOUGHT ≤ q.COUNT) →
    (∀ q ∈ ((idxs).foldl (processProfile gifts oracle) acc).cfg.PROFILES,
      q.BOUGHT ≤ q.COUNT) ∧
    (∀ c ∈ ((idxs).foldl (processProfile gifts oracle) acc).tr, c ∈ acc.tr ∨
      ∀ q ∈ c.PROFILES, q.BOUGHT ≤ q.COUNT) := by
  intro idxs
  induction idxs with
  | nil => intro acc hP; exact ⟨hP, fun c hc => Or.inl hc⟩
  | cons i rest ih =>
    intro acc hP
    rw [List.foldl_cons]
    obtain ⟨h1, h2⟩ := processProfile_bought_inv gifts oracle acc i hP
    obtain ⟨h3, h4⟩ := ih (processProfile gifts oracle acc i) h1
    refine ⟨h3, ?_⟩
    intro c hc
    rcases h4 c hc with h | h
    · exact h2 c h
    · exact Or.inr h

theorem foldl_spent_inv (gifts : Nat → List Gift) (oracle : Nat → Bool) :
    ∀ (idxs : List Nat) (acc : CycleAcc),
    (∀ q ∈ acc.cfg.PROFILES, q.SPENT ≤ q.LIMIT) →
    (∀ q ∈ ((idxs).foldl (processProfile gifts oracle) acc).cfg.PROFILES,
      q.SPENT ≤ q.LIMIT) ∧
    (∀ c ∈ ((idxs).foldl (processProfile gifts oracle) acc).tr, c ∈ acc.tr ∨
      ∀ q ∈ c.PROFILES, q.SPENT ≤ q.LIMIT) := by
  intro idxs
  induction idxs with
  | nil => intro acc hP; exact ⟨hP, fun c hc => Or.inl hc⟩
  | cons i rest ih =>
    intro acc hP
    rw [List.foldl_cons]
    obtain ⟨h1, h2⟩ := processProfile_spent_inv gifts oracle acc i hP
    obtain ⟨h3, h4⟩ := ih (processProfile gifts oracle acc i) h1
    refine ⟨h3, ?_⟩
    intro c hc
    rcases h4 c hc with h | h
    · exact h2 c h
    · exact Or.inr h

theorem foldl_no_progress (gifts : Nat → List Gift) (oracle : Nat → Bool) :
    ∀ (idxs : List Nat) (acc : CycleAcc),
    ((idxs).foldl (processProfile gifts oracle) acc).progressMade = false →
    (∀ i ∈ idxs, i < acc.cfg.PROFILES.length) →
    ((idxs).foldl (processProfile gifts oracle) acc).cfg = acc.cfg ∧
    ((idxs).foldl (processProfile gifts oracle) acc).tr = acc.tr ∧
    acc.progressMade = false := by
  intro idxs
  induction idxs with
  | nil => intro acc h _; exact ⟨rfl, rfl, h⟩
  | cons i rest ih =>
    intro acc h hbound
    rw [List.foldl_cons] at h ⊢
    have hbound' : ∀ j ∈ rest, j < (processProfile gifts oracle acc i).cfg.PROFILES.length := by
      intro j hj
      rw [processProfile_length]
      exact hbound j (List.mem_cons_of_mem i hj)
    obtain ⟨hcfg, htr, hpm⟩ := ih (processProfile gifts oracle acc i) h hbound'
    obtain ⟨hpm0, hcfg0, htr0⟩ := processProfile_no_progress gifts oracle acc i hpm
    refine ⟨?_, ?_, hpm0⟩
    · rw [hcfg, hcfg0 (hbound i (List.mem_cons_self i rest))]
    · rw [htr, htr0]

theorem foldl_skip (gifts : Nat → List Gift) (oracle : Nat → Bool) :
    ∀ (idxs : List Nat) (acc : CycleAcc),
    (∀ q ∈ acc.cfg.PROFILES, q.DONE = true) →
    (∀ i ∈ idxs, i < acc.cfg.PROFILES.length) →
    (idxs).foldl (processProfile gifts oracle) acc = acc := by
  intro idxs
  induction idxs with
  | nil => intro acc _ _; rfl
  | cons i rest ih =>
    intro acc hdone hbound
    rw [List.foldl_cons]
    have hstep : processProfile gifts oracle acc i = acc := by
      apply processProfile_skip
      have hi : i < acc.cfg.PROFILES.length := hbound i (List.mem_cons_self i rest)
      rw [List.getD_eq_getElem?_getD, List.getElem?_eq_getElem hi]
      exact hdone _ (List.getElem_mem hi)
    rw [hstep]
    exact ih acc hdone (fun j hj => hbound j (List.mem_cons_of_mem i hj))

theorem cycleFailureStep_profiles (acc : CycleAcc) :
    (cycleFailureStep acc).cfg.PROFILES = acc.cfg.PROFILES ∧
    ∀ c ∈ (cycleFailureStep acc).saves, c ∈ acc.tr ∨
      c.PROFILES = acc.cfg.PROFILES := by
  simp only [cycleFailureStep]
  split
  · refine ⟨rfl, ?_⟩
    intro c hc
    rcases List.mem_append.mp hc with hc' | hc'
    · exact Or.inl hc'
    · rcases List.mem_singleton.mp hc' with rfl
      exact Or.inr rfl
  · exact ⟨rfl, fun c hc => Or.inl hc⟩

theorem cycleReportStep_profiles (acc : CycleAcc) (r1 : CycleResult) :
    (cycleReportStep acc r1).cfg.PROFILES = r1.cfg.PROFILES ∧
    ∀ c ∈ (cycleReportStep acc r1).saves, c ∈ r1.saves ∨
      c.PROFILES = r1.cfg.PROFILES := by
  simp only [cycleReportStep]
  split
  · refine ⟨rfl, ?_⟩
    intro c hc
    rcases List.mem_append.mp hc with hc' | hc'
    · exact Or.inl hc'
    · rcases List.mem_singleton.mp hc' with rfl
      exact Or.inr rfl
  · exact ⟨rfl, fun c hc => Or.inl hc⟩

theorem cycleAllDoneStep_profiles (r2 : CycleResult) :
    (cycleAllDoneStep r2).cfg.PROFILES = r2.cfg.PROFILES ∧
    ∀ c ∈ (cycleAllDoneStep r2).saves, c ∈ r2.saves ∨
      c.PROFILES = r2.cfg.PROFILES := by
  simp only [cycleAllDoneStep]
  split
  · refine ⟨rfl, ?_⟩
    intro c hc
    rcases List.mem_append.mp hc with hc' | hc'
    · exact Or.inl hc'
    · rcases List.mem_singleton.mp hc' with rfl
      exact Or.inr rfl
  · exact ⟨rfl, fun c hc => Or.inl hc⟩

/-- Lifting a per-profile property through the end-of-cycle decisions: the
final configuration keeps the sweep's profile list, every extra saved
configuration shares it, and the idle branch keeps the input. -/
theorem runCycle_inv (cfg : WConfig) (gifts : Nat → List Gift) (oracle : Nat → Bool)
    (P : WProfile → Prop)
    (hcfg : ∀ q ∈ cfg.PROFILES, P q)
    (hacc : ∀ q ∈ (runCycleAcc cfg gifts oracle).cfg.PROFILES, P q)
    (htr : ∀ c ∈ (runCycleAcc cfg gifts oracle).tr, ∀ q ∈ c.PROFILES, P q) :
    (∀ q ∈ (runCycle cfg gifts oracle).cfg.PROFILES, P q) ∧
    (∀ c ∈ (runCycle cfg gifts oracle).saves, ∀ q ∈ c.PROFILES, P q) := by
  simp only [runCycle]
  split
  · exact ⟨hcfg, fun c hc => absurd hc (List.not_mem_nil c)⟩
  · obtain ⟨h1p, h1s⟩ := cycleFailureStep_profiles (runCycleAcc cfg gifts oracle)
    obtain ⟨h2p, h2s⟩ := cycleReportStep_profiles (runCycleAcc cfg gifts oracle)
      (cycleFailureStep (runCycleAcc cfg gifts oracle))
    obtain ⟨h3p, h3s⟩ := cycleAllDoneStep_profiles
      (cycleReportStep (runCycleAcc cfg gifts oracle)
        (cycleFailureStep (runCycleAcc cfg gifts oracle)))
    constructor
    · rw [h3p, h2p, h1p]
      exact hacc
    · intro c hc
      rcases h3s c hc with hc' | hc'
      · rcases h2s c hc' with hc'' | hc''
        · rcases h1s c hc'' with hc3 | hc3
          · exact htr c hc3
          · rw [hc3]; exact hacc
        · rw [hc'', h1p]; exact hacc
      · rw [hc', h2p, h1p]; exact hacc

theorem cycleFailureStep_pos (acc : CycleAcc) (h1 : acc.anySuccess = false)
    (h2 : acc.progressMade = false) :
    cycleFailureStep acc =
      ⟨{ acc.cfg with ACTIVE := false }, [Msg.insufficientBalance],
        acc.tr ++ [{ acc.cfg with ACTIVE := false }], acc.k⟩ := by
  simp only [cycleFailureStep]
  rw [if_pos ⟨h1, h2⟩]

theorem cycleFailureStep_neg (acc : CycleAcc)
    (h : acc.anySuccess = true ∨ acc.progressMade = true) :
    cycleFailureStep acc = ⟨acc.cfg, [], acc.tr, acc.k⟩ := by
  simp only [cycleFailureStep]
  rw [if_neg (by rcases h with h | h <;> simp [h])]

theorem cycleReportStep_neg (acc : CycleAcc) (r1 : CycleResult)
    (h : acc.progressMade = false) :
    cycleReportStep acc r1 = r1 := by
  simp only [cycleReportStep]
  rw [if_neg (by simp [h])]

theorem cycleAllDoneStep_negActive (r2 : CycleResult) (h : r2.cfg.ACTIVE = false) :
    cycleAllDoneStep r2 = r2 := by
  simp only [cycleAllDoneStep]
  rw [if_neg (by simp [h])]

theorem cycleAllDoneStep_pos (r2 : CycleResult)
    (h1 : r2.cfg.PROFILES.all (fun p => p.DONE) = true) (h2 : r2.cfg.ACTIVE = true) :
    cycleAllDoneStep r2 =
      ⟨{ r2.cfg with ACTIVE := false }, r2.msgs ++ [Msg.allComplete],
        r2.saves ++ [{ r2.cfg with ACTIVE := false }], r2.attempts⟩ := by
  simp only [cycleAllDoneStep]
  rw [if_pos ⟨h1, h2⟩]


theorem runCycleBought (cfg : WConfig) (gifts : Nat → List Gift) (oracle : Nat → Bool)
    (h : ∀ p ∈ cfg.PROFILES, p.BOUGHT ≤ p.COUNT) :
    (∀ p ∈ (runCycle cfg gifts oracle).cfg.PROFILES, p.BOUGHT ≤ p.COUNT) ∧
    (∀ c ∈ (runCycle cfg gifts oracle).saves, ∀ p ∈ c.PROFILES, p.BOUGHT ≤ p.COUNT) := by
  obtain ⟨hacc, htr⟩ := foldl_bought_inv gifts oracle
    (List.range cfg.PROFILES.length) ⟨cfg, 0, false, true, []⟩ h
  apply runCycle_inv cfg gifts oracle (fun q => q.BOUGHT ≤ q.COUNT) h hacc
  intro c hc
  rcases htr c hc with h' | h'
  · exact absurd h' (List.not_mem_nil c)
  · exact h'

theorem runCycleSpent (cfg : WConfig) (gifts : Nat → List Gift) (oracle : Nat → Bool)
    (h : ∀ p ∈ cfg.PROFILES, p.SPENT ≤ p.LIMIT) :
    (∀ p ∈ (runCycle cfg gifts oracle).cfg.PROFILES, p.SPENT ≤ p.LIMIT) ∧
    (∀ c ∈ (runCycle cfg gifts oracle).saves, ∀ p ∈ c.PROFILES, p.SPENT ≤ p.LIMIT) := by
  obtain ⟨hacc, htr⟩ := foldl_spent_inv gifts oracle
    (List.range cfg.PROFILES.length) ⟨cfg, 0, false, true, []⟩ h
  apply runCycle_inv cfg gifts oracle (fun q => q.SPENT ≤ q.LIMIT) h hacc
  intro c hc
  rcases htr c hc with h' | h'
  · exact absurd h' (List.not_mem_nil c)
  · exact h'

/-- C2: for every configuration state reachable through the purchase worker,
every profile satisfies `BOUGHT ≤ COUNT`: the purchase attempt is guarded by
`bought < count`, so starting from any configuration satisfying the invariant,
the final configuration of a cycle, every configuration the cycle saves, and
every configuration reached by iterating cycles satisfy it. -/
theorem c2_bought_le_count (cfg : WConfig) (gifts : Nat → List Gift)
    (oracle : Nat → Bool) (h : ∀ p ∈ cfg.PROFILES, p.BOUGHT ≤ p.COUNT) :
    (∀ p ∈ (runCycle cfg gifts oracle).cfg.PROFILES, p.BOUGHT ≤ p.COUNT) ∧
    (∀ c ∈ (runCycle cfg gifts oracle).saves, ∀ p ∈ c.PROFILES, p.BOUGHT ≤ p.COUNT) ∧
    (∀ (gs : Nat → Nat → List Gift) (os : Nat → Nat → Bool) (n : Nat),
      ∀ p ∈ (runCycles gs os cfg n).PROFILES, p.BOUGHT ≤ p.COUNT) := by
  refine ⟨(runCycleBought cfg gifts oracle h).1, (runCycleBought cfg gifts oracle h).2, ?_⟩
  intro gs os n
  induction n with
  | zero => exact h
  | succ n ih =>
    exact (runCycleBought (runCycles gs os cfg n) (gs n) (os n) ih).1

/-- C2 witness: a concrete run of the scenario with `count = 3`. -/
theorem c2_bought_le_count_witness :
    (∀ p ∈ c2_cfg.PROFILES, p.BOUGHT ≤ p.COUNT) ∧
    (∀ p ∈ (runCycle c2_cfg c2_gifts c2_oracle).cfg.PROFILES, p.BOUGHT ≤ p.COUNT) ∧
    (∀ p ∈ (runCycles c2_giftsSeq c2_oracleSeq c2_cfg 2).PROFILES,
      p.BOUGHT ≤ p.COUNT) :=
  ⟨by decide, (c2_bought_le_count c2_cfg c2_gifts c2_oracle (by decide)).1,
    (c2_bought_le_count c2_cfg c2_gifts c2_oracle (by decide)).2.2
      c2_giftsSeq c2_oracleSeq 2⟩

/-- C10: in every state the worker persists, each profile satisfies
`SPENT ≤ LIMIT` with no overshoot at all: a purchase is attempted only when
`SPENT + price ≤ LIMIT` already holds, so starting from any configuration
satisfying the invariant, the final configuration, every saved configuration,
and every configuration reached by iterating cycles satisfy `SPENT ≤ LIMIT`
(a purchase can reach the limit exactly but never pass it). -/
theorem c10_spent_le_limit (cfg : WConfig) (gifts : Nat → List Gift)
    (oracle : Nat → Bool) (h : ∀ p ∈ cfg.PROFILES, p.SPENT ≤ p.LIMIT) :
    (∀ p ∈ (runCycle cfg gifts oracle).cfg.PROFILES, p.SPENT ≤ p.LIMIT) ∧
    (∀ c ∈ (runCycle cfg gifts oracle).saves, ∀ p ∈ c.PROFILES, p.SPENT ≤ p.LIMIT) ∧
    (∀ (gs : Nat → Nat → List Gift) (os : Nat → Nat → Bool) (n : Nat),
      ∀ p ∈ (runCycles gs os cfg n).PROFILES, p.SPENT ≤ p.LIMIT) := by
  refine ⟨(runCycleSpent cfg gifts oracle h).1, (runCycleSpent cfg gifts oracle h).2, ?_⟩
  intro gs os n
  induction n with
  | zero => exact h
  | succ n ih =>
    exact (runCycleSpent (runCycles gs os cfg n) (gs n) (os n) ih).1

/-- C10 witness: with `limit = 100` and an item priced 100, one purchase
brings `SPENT` to exactly the limit and the invariant holds throughout. -/
theorem c10_spent_le_limit_witness :
    (∀ p ∈ c10_cfg.PROFILES, p.SPENT ≤ p.LIMIT) ∧
    (∀ p ∈ (runCycle c10_cfg c10_gifts c10_oracle).cfg.PROFILES, p.SPENT ≤ p.LIMIT) ∧
    (∀ c ∈ (runCycle c10_cfg c10_gifts c10_oracle).saves,
      ∀ p ∈ c.PROFILES, p.SPENT ≤ p.LIMIT) ∧
    ((runCycle c10_cfg c10_gifts c10_oracle).cfg.PROFILES.getD 0 default).SPENT = 100 :=
  ⟨by decide, (c10_spent_le_limit c10_cfg c10_gifts c10_oracle (by decide)).1,
    (c10_spent_le_limit c10_cfg c10_gifts c10_oracle (by decide)).2.1, by decide⟩

/-- C1 counterexample: with `count = 100`, `limit = 250`, items priced 100 and
a successful executor, the worker makes exactly 2 purchases and issues no 3rd
attempt, ending with `bought = 2`, `spent = 200` — but the profile is *not*
marked done (it is reported as partial), contradicting the claim's final
conjunct: completion requires `bought ≥ count` or `spent ≥ limit`. -/
theorem c1_budget_stop_counterexample :
    (runCycle c1_cfg c1_gifts c1_oracle).attempts = 2 ∧
    (runCycle c1_cfg c1_gifts c1_oracle).cfg.PROFILES = [⟨100, 250, 2, 200, false⟩] ∧
    ¬ ((runCycle c1_cfg c1_gifts c1_oracle).cfg.PROFILES.getD 0 default).DONE = true := by
  decide

/-- C1 amended: in the `count = 100`, `limit = 250` scenario with items priced
100 and a successful executor, exactly 2 purchases are made and no 3rd attempt
is issued (the guard `spent + price ≤ limit` fails at `200 + 100 > 250`); the
profile ends the cycle with `bought = 2`, `spent = 200`, remains `done =
false`, a partial-progress report is emitted, and `ACTIVE` stays true. -/
theorem c1_budget_stop_amended :
    runCycle c1_cfg c1_gifts c1_oracle =
      ⟨⟨true, [⟨100, 250, 2, 200, false⟩]⟩, [Msg.profileReport],
        [⟨true, [⟨100, 250, 1, 100, false⟩]⟩, ⟨true, [⟨100, 250, 2, 200, false⟩]⟩,
         ⟨true, [⟨100, 250, 2, 200, false⟩]⟩], 2⟩ := by
  decide

/-- C3 counterexample: a cycle with one active, incomplete profile and no
matching inventory has no successful purchase and no bought/spent increase,
yet the worker leaves `ACTIVE = true`, emits no notice and saves nothing: the
deactivation is keyed to `any_success = False` (a *failed attempt* occurred),
not to the absence of successful purchases. -/
theorem c3_total_failure_counterexample :
    runCycle c3_cfg c3_gifts_idle c3_oracle = ⟨c3_cfg, [], [], 0⟩ ∧
    c3_cfg.ACTIVE = true := by
  decide

/-- C3 amended: for every worker cycle that starts active, in which at least
one `buy_gift` call fails (the cycle's `any_success` flag is false) and no
profile makes progress (no bought/spent increase and no profile newly marked
done, i.e. `progress_made` is false), the worker forces `ACTIVE := false`,
persists exactly that configuration, and emits exactly one deactivation
notice; the profiles are unchanged, so none is newly marked done. -/
theorem c3_total_failure_amended (cfg : WConfig) (gifts : Nat → List Gift)
    (oracle : Nat → Bool) (hA : cfg.ACTIVE = true)
    (hS : (runCycleAcc cfg gifts oracle).anySuccess = false)
    (hP : (runCycleAcc cfg gifts oracle).progressMade = false) :
    runCycle cfg gifts oracle =
      ⟨{ cfg with ACTIVE := false }, [Msg.insufficientBalance],
        [{ cfg with ACTIVE := false }], (runCycleAcc cfg gifts oracle).k⟩ := by
  obtain ⟨hcfg, htr, _⟩ := foldl_no_progress gifts oracle
    (List.range cfg.PROFILES.length) ⟨cfg, 0, false, true, []⟩ hP
    (fun i hi => List.mem_range.mp hi)
  have hacc_cfg : (runCycleAcc cfg gifts oracle).cfg = cfg := hcfg
  have hacc_tr : (runCycleAcc cfg gifts oracle).tr = [] := htr
  simp only [runCycle]
  rw [if_neg (by simp [hA]), cycleFailureStep_pos _ hS hP,
    cycleReportStep_neg _ _ hP, cycleAllDoneStep_negActive _ rfl,
    hacc_cfg, hacc_tr]
  rfl

/-- C3 witness: one profile with available inventory and a failing executor:
one attempt is made and fails, no progress is made, and the cycle deactivates
with a single notice. -/
theorem c3_total_failure_witness :
    c3_cfg.ACTIVE = true ∧
    (runCycleAcc c3_cfg c3_gifts c3_oracle).anySuccess = false ∧
    (runCycleAcc c3_cfg c3_gifts c3_oracle).progressMade = false ∧
    runCycle c3_cfg c3_gifts c3_oracle =
      ⟨{ c3_cfg with ACTIVE := false }, [Msg.insufficientBalance],
        [{ c3_cfg with ACTIVE := false }], 1⟩ :=
  ⟨by decide, by decide, by decide,
    c3_total_failure_amended c3_cfg c3_gifts c3_oracle (by decide) (by decide)
      (by decide)⟩

/-- C4: whenever a worker cycle starts with every profile `DONE = true` while
`ACTIVE` is still true, the cycle performs no purchase attempt (0 executor
calls), sets `ACTIVE := false`, persists exactly that configuration, and
emits the distinct "all profiles complete" notice. -/
theorem c4_all_done_deactivation (cfg : WConfig) (gifts : Nat → List Gift)
    (oracle : Nat → Bool) (hA : cfg.ACTIVE = true)
    (hdone : ∀ p ∈ cfg.PROFILES, p.DONE = true) :
    runCycle cfg gifts oracle =
      ⟨{ cfg with ACTIVE := false }, [Msg.allComplete],
        [{ cfg with ACTIVE := false }], 0⟩ := by
  have hskip : runCycleAcc cfg gifts oracle = ⟨cfg, 0, false, true, []⟩ :=
    foldl_skip gifts oracle (List.range cfg.PROFILES.length)
      ⟨cfg, 0, false, true, []⟩ hdone (fun i hi => List.mem_range.mp hi)
  simp only [runCycle]
  rw [if_neg (by simp [hA]), hskip,
    cycleFailureStep_neg _ (Or.inl rfl), cycleReportStep_neg _ _ rfl,
    cycleAllDoneStep_pos _ (List.all_eq_true.mpr hdone) hA]
  rfl

/-- C4 witness: two done profiles with `ACTIVE = true`: the cycle deactivates
with the "all profiles complete" notice and zero executor calls. -/
theorem c4_all_done_deactivation_witness :
    c4_cfg.ACTIVE = true ∧ (∀ p ∈ c4_cfg.PROFILES, p.DONE = true) ∧
    runCycle c4_cfg c4_gifts c4_oracle =
      ⟨{ c4_cfg with ACTIVE := false }, [Msg.allComplete],
        [{ c4_cfg with ACTIVE := false }], 0⟩ :=
  ⟨by decide, by decide,
    c4_all_done_deactivation c4_cfg c4_gifts c4_oracle (by decide) (by decide)⟩

/-!
### Helper lemmas: validation
-/

theorem validateField_dict (xs : List (String × PyVal))
    (dflt : List (String × PyVal)) (kta : String × PyTy × Bool) :
    validateField (.dict xs) dflt kta =
      .ok (kta.1, claimRepairedField xs kta.1 kta.2.1 kta.2.2 (dget dflt kta.1)) := by
  cases h : alookup xs kta.1 with
  | none => simp [validateField, pyContains, pySubscript, claimRepairedField, h]
  | some v =>
    simp only [validateField, pyContains, pySubscript, claimRepairedField, h,
      Option.isSome_some, if_true]
    split <;> rfl

theorem validateField_ok (src : PyVal) (dflt : List (String × PyVal))
    (kta : String × PyTy × Bool) (e : String × PyVal)
    (h : validateField src dflt kta = .ok e) :
    e.1 = kta.1 ∧ (is_valid_type e.2 kta.2.1 kta.2.2 = true ∨ e.2 = dget dflt kta.1) := by
  cases hc : pyContains src kta.1 with
  | error e' =>
    simp only [validateField, hc] at h
    exact Except.noConfusion h
  | ok contained =>
    simp only [validateField, hc] at h
    by_cases hb : contained = true
    · rw [if_pos hb] at h
      cases hs : pySubscript src kta.1 with
      | error e' =>
        simp only [hs] at h
        exact Except.noConfusion h
      | ok v =>
        simp only [hs] at h
        by_cases hv : is_valid_type v kta.2.1 kta.2.2 = true
        · rw [if_pos hv] at h
          cases h
          exact ⟨rfl, Or.inl hv⟩
        · rw [if_neg hv] at h
          cases h
          exact ⟨rfl, Or.inr rfl⟩
    · rw [if_neg hb] at h
      cases h
      exact ⟨rfl, Or.inr rfl⟩

theorem default_profile_field_valid (u : Int) (kta : String × PyTy × Bool)
    (h : kta ∈ PROFILE_TYPES) :
    is_valid_type (dget (DEFAULT_PROFILE u) kta.1) kta.2.1 kta.2.2 = true := by
  fin_cases h <;> rfl

theorem default_config_field_valid (u : Int) (kta : String × PyTy × Bool)
    (h : kta ∈ CONFIG_TYPES) :
    is_valid_type (dget (DEFAULT_CONFIG u) kta.1) kta.2.1 kta.2.2 = true := by
  fin_cases h <;> rfl

theorem validateField_ok_valid (src : PyVal) (dflt : List (String × PyVal))
    (kta : String × PyTy × Bool) (e : String × PyVal)
    (hd : is_valid_type (dget dflt kta.1) kta.2.1 kta.2.2 = true)
    (h : validateField src dflt kta = .ok e) :
    e = (kta.1, e.2) ∧ is_valid_type e.2 kta.2.1 kta.2.2 = true := by
  obtain ⟨h1, h2⟩ := validateField_ok src dflt kta e h
  have he : e = (kta.1, e.2) := by rw [← h1]
  rcases h2 with h2 | h2
  · exact ⟨he, h2⟩
  · exact ⟨he, by rw [h2]; exact hd⟩

/-- Per-field characterization of profile validation on a dict input: the
result is total (no error) and repairs each schema field independently. -/
theorem validate_profile_dict (xs : List (String × PyVal)) (u : Option Int) :
    validate_profile (.dict xs) u = .ok (.dict (PROFILE_TYPES.map (fun kta =>
      (kta.1, claimRepairedField xs kta.1 kta.2.1 kta.2.2
        (dget (DEFAULT_PROFILE (u.getD 0)) kta.1))))) := by
  simp only [validate_profile]
  rw [exceptMapM_ok_of_forall PROFILE_TYPES _ _
    (fun kta _ => validateField_dict xs (DEFAULT_PROFILE (u.getD 0)) kta)]

theorem validate_profile_ok_shape (p : PyVal) (u : Option Int) (w : PyVal)
    (h : validate_profile p u = .ok w) :
    ∃ v1 v2 v3 v4 v5 v6 v7 v8 v9 v10 v11,
      w = .dict [("MIN_PRICE", v1), ("MAX_PRICE", v2), ("MIN_SUPPLY", v3),
        ("MAX_SUPPLY", v4), ("LIMIT", v5), ("COUNT", v6), ("TARGET_USER_ID", v7),
        ("TARGET_CHAT_ID", v8), ("BOUGHT", v9), ("SPENT", v10), ("DONE", v11)] ∧
      is_valid_type v1 PyTy.int false = true ∧
      is_valid_type v2 PyTy.int false = true ∧
      is_valid_type v3 PyTy.int false = true ∧
      is_valid_type v4 PyTy.int false = true ∧
      is_valid_type v5 PyTy.int false = true ∧
      is_valid_type v6 PyTy.int false = true ∧
      is_valid_type v7 PyTy.int true = true ∧
      is_valid_type v8 PyTy.str true = true ∧
      is_valid_type v9 PyTy.int false = true ∧
      is_valid_type v10 PyTy.int false = true ∧
      is_valid_type v11 PyTy.bool false = true := by
  simp only [validate_profile] at h
  cases hm : exceptMapM (validateField p (DEFAULT_PROFILE (u.getD 0))) PROFILE_TYPES with
  | error e => rw [hm] at h; cases h
  | ok entries =>
    rw [hm] at h
    cases h
    have hf := exceptMapM_forall₂ PROFILE_TYPES _ entries hm
    simp only [PROFILE_TYPES] at hf
    rcases hf with - | ⟨h1, hf⟩
    rcases hf with - | ⟨h2, hf⟩
    rcases hf with - | ⟨h3, hf⟩
    rcases hf with - | ⟨h4, hf⟩
    rcases hf with - | ⟨h5, hf⟩
    rcases hf with - | ⟨h6, hf⟩
    rcases hf with - | ⟨h7, hf⟩
    rcases hf with - | ⟨h8, hf⟩
    rcases hf with - | ⟨h9, hf⟩
    rcases hf with - | ⟨h10, hf⟩
    rcases hf with - | ⟨h11, hf⟩
    rcases hf with - | -
    obtain ⟨ha1, hb1⟩ := validateField_ok_valid _ _ _ _
      (default_profile_field_valid (u.getD 0) _ (by decide)) h1
    obtain ⟨ha2, hb2⟩ := validateField_ok_valid _ _ _ _
      (default_profile_field_valid (u.getD 0) _ (by decide)) h2
    obtain ⟨ha3, hb3⟩ := validateField_ok_valid _ _ _ _
      (default_profile_field_valid (u.getD 0) _ (by decide)) h3
    obtain ⟨ha4, hb4⟩ := validateField_ok_valid _ _ _ _
      (default_profile_field_valid (u.getD 0) _ (by decide)) h4
    obtain ⟨ha5, hb5⟩ := validateField_ok_valid _ _ _ _
      (default_profile_field_valid (u.getD 0) _ (by decide)) h5
    obtain ⟨ha6, hb6⟩ := validateField_ok_valid _ _ _ _
      (default_profile_field_valid (u.getD 0) _ (by decide)) h6
    obtain ⟨ha7, hb7⟩ := validateField_ok_valid _ _ _ _
      (default_profile_field_valid (u.getD 0) _ (by decide)) h7
    obtain ⟨ha8, hb8⟩ := validateField_ok_valid _ _ _ _
      (default_profile_field_valid (u.getD 0) _ (by decide)) h8
    obtain ⟨ha9, hb9⟩ := validateField_ok_valid _ _ _ _
      (default_profile_field_valid (u.getD 0) _ (by decide)) h9
    obtain ⟨ha10, hb10⟩ := validateField_ok_valid _ _ _ _
      (default_profile_field_valid (u.getD 0) _ (by decide)) h10
    obtain ⟨ha11, hb11⟩ := validateField_ok_valid _ _ _ _
      (default_profile_field_valid (u.getD 0) _ (by decide)) h11
    refine ⟨_, _, _, _, _, _, _, _, _, _, _, ?_,
      hb1, hb2, hb3, hb4, hb5, hb6, hb7, hb8, hb9, hb10, hb11⟩
    rw [ha1, ha2, ha3, ha4, ha5, ha6, ha7, ha8, ha9, ha10, ha11]

theorem exceptMapM_cons_ok (f : α → Except String β) (a : α) (as : List α)
    (b : β) (bs : List β) (ha : f a = .ok b) (has : exceptMapM f as = .ok bs) :
    exceptMapM f (a :: as) = .ok (b :: bs) := by
  simp [exceptMapM, ha, has]

theorem forall₂_mem_right {α β : Type} {R : α → β → Prop} :
    ∀ {l₁ : List α} {l₂ : List β}, List.Forall₂ R l₁ l₂ →
    ∀ b ∈ l₂, ∃ a ∈ l₁, R a b := by
  intro l₁ l₂ h
  induction h with
  | nil => intro b hb; cases hb
  | cons hr _ ih =>
    intro b hb
    rcases List.mem_cons.mp hb with rfl | hb'
    · exact ⟨_, List.mem_cons_self _ _, hr⟩
    · obtain ⟨a, ha, hra⟩ := ih b hb'
      exact ⟨a, List.mem_cons_of_mem _ ha, hra⟩

/-- A schema-shaped profile dictionary whose values are all type-valid is a
fixed point of `validate_profile`, for any user id. -/
theorem validate_profile_fix (u : Option Int)
    (v1 v2 v3 v4 v5 v6 v7 v8 v9 v10 v11 : PyVal)
    (h1 : is_valid_type v1 PyTy.int false = true)
    (h2 : is_valid_type v2 PyTy.int false = true)
    (h3 : is_valid_type v3 PyTy.int false = true)
    (h4 : is_valid_type v4 PyTy.int false = true)
    (h5 : is_valid_type v5 PyTy.int false = true)
    (h6 : is_valid_type v6 PyTy.int false = true)
    (h7 : is_valid_type v7 PyTy.int true = true)
    (h8 : is_valid_type v8 PyTy.str true = true)
    (h9 : is_valid_type v9 PyTy.int false = true)
    (h10 : is_valid_type v10 PyTy.int false = true)
    (h11 : is_valid_type v11 PyTy.bool false = true) :
    validate_profile (.dict [("MIN_PRICE", v1), ("MAX_PRICE", v2),
      ("MIN_SUPPLY", v3), ("MAX_SUPPLY", v4), ("LIMIT", v5), ("COUNT", v6),
      ("TARGET_USER_ID", v7), ("TARGET_CHAT_ID", v8), ("BOUGHT", v9),
      ("SPENT", v10), ("DONE", v11)]) u =
    .ok (.dict [("MIN_PRICE", v1), ("MAX_PRICE", v2),
      ("MIN_SUPPLY", v3), ("MAX_SUPPLY", v4), ("LIMIT", v5), ("COUNT", v6),
      ("TARGET_USER_ID", v7), ("TARGET_CHAT_ID", v8), ("BOUGHT", v9),
      ("SPENT", v10), ("DONE", v11)]) := by
  rw [validate_profile_dict]
  simp [PROFILE_TYPES, claimRepairedField, alookup, h1, h2, h3, h4, h5, h6, h7,
    h8, h9, h10, h11]

/-- The default profile is a fixed point of `validate_profile`. -/
theorem validate_profile_default_fix (u : Int) (u' : Option Int) :
    validate_profile (.dict (DEFAULT_PROFILE u)) u' = .ok (.dict (DEFAULT_PROFILE u)) :=
  validate_profile_fix u' (.int 5000) (.int 10000) (.int 1000) (.int 10000)
    (.int 1000000) (.int 5) (.int u) PyVal.none (.int 0) (.int 0) (.bool false)
    rfl rfl rfl rfl rfl rfl rfl rfl rfl rfl rfl

/-- Every successful profile validation yields a fixed point of
`validate_profile`, whatever user id is used to re-validate it. -/
theorem validate_profile_ok_fix (p : PyVal) (u : Option Int) (w : PyVal)
    (h : validate_profile p u = .ok w) :
    ∀ u' : Option Int, validate_profile w u' = .ok w := by
  obtain ⟨v1, v2, v3, v4, v5, v6, v7, v8, v9, v10, v11, rfl,
    hb1, hb2, hb3, hb4, hb5, hb6, hb7, hb8, hb9, hb10, hb11⟩ :=
    validate_profile_ok_shape p u w h
  intro u'
  exact validate_profile_fix u' v1 v2 v3 v4 v5 v6 v7 v8 v9 v10 v11
    hb1 hb2 hb3 hb4 hb5 hb6 hb7 hb8 hb9 hb10 hb11

/-- Shape of every successful configuration validation: the four schema keys
in order, every value type-valid, a non-empty profile list whose members are
fixed points of profile validation. -/
theorem validate_config_ok_shape (c : PyVal) (u : Int) (v : PyVal)
    (h : validate_config c u = .ok v) :
    ∃ b a m vps,
      v = .dict [("BALANCE", b), ("ACTIVE", a), ("LAST_MENU_MESSAGE_ID", m),
        ("PROFILES", .list vps)] ∧
      is_valid_type b PyTy.int false = true ∧
      is_valid_type a PyTy.bool false = true ∧
      is_valid_type m PyTy.int true = true ∧
      vps ≠ [] ∧
      (∀ vp ∈ vps, ∀ u' : Option Int, validate_profile vp u' = .ok vp) := by
  simp only [validate_config] at h
  cases hm : exceptMapM (validateConfigField c u) CONFIG_TYPES with
  | error e => rw [hm] at h; exact Except.noConfusion h
  | ok entries =>
    rw [hm] at h
    cases h
    have hf := exceptMapM_forall₂ CONFIG_TYPES _ entries hm
    simp only [CONFIG_TYPES] at hf
    rcases hf with - | ⟨h1, hf⟩
    rcases hf with - | ⟨h2, hf⟩
    rcases hf with - | ⟨h3, hf⟩
    rcases hf with - | ⟨h4, hf⟩
    rcases hf with - | -
    simp only [validateConfigField] at h1 h2 h3 h4
    rw [if_neg (show ¬ ("BALANCE" = "PROFILES") by decide)] at h1
    rw [if_neg (show ¬ ("ACTIVE" = "PROFILES") by decide)] at h2
    rw [if_neg (show ¬ ("LAST_MENU_MESSAGE_ID" = "PROFILES") by decide)] at h3
    rw [if_pos trivial] at h4
    obtain ⟨ha1, hb1⟩ := validateField_ok_valid _ _ _ _
      (default_config_field_valid u _ (by decide)) h1
    obtain ⟨ha2, hb2⟩ := validateField_ok_valid _ _ _ _
      (default_config_field_valid u _ (by decide)) h2
    obtain ⟨ha3, hb3⟩ := validateField_ok_valid _ _ _ _
      (default_config_field_valid u _ (by decide)) h3
    cases hg : pyGet c "PROFILES" (.list []) with
    | error e => simp only [hg] at h4; exact Except.noConfusion h4
    | ok pv =>
      simp only [hg] at h4
      cases hi : pyIter pv with
      | error e => simp only [hi] at h4; exact Except.noConfusion h4
      | ok items =>
        simp only [hi] at h4
        cases hvp : exceptMapM (fun pr => validate_profile pr (Option.some u)) items with
        | error e => simp only [hvp] at h4; exact Except.noConfusion h4
        | ok vps0 =>
          simp only [hvp] at h4
          cases h4
          refine ⟨_, _, _,
            if vps0.isEmpty = true then [PyVal.dict (DEFAULT_PROFILE u)] else vps0,
            ?_, hb1, hb2, hb3, ?_, ?_⟩
          · rw [ha1, ha2, ha3]
          · split
            · exact List.cons_ne_nil _ _
            · next hne =>
              intro hnil
              rw [hnil] at hne
              exact hne List.isEmpty_nil
          · intro vp hvp'
            split at hvp'
            · rcases List.mem_singleton.mp hvp' with rfl
              exact fun u' => validate_profile_default_fix u u'
            · obtain ⟨a, _, hra⟩ :=
                forall₂_mem_right (exceptMapM_forall₂ items _ vps0 hvp) vp hvp'
              exact validate_profile_ok_fix a (Option.some u) vp hra

/-- Every successful configuration validation yields a fixed point of
`validate_config`. -/
theorem validate_config_ok_fix (c : PyVal) (u : Int) (v : PyVal)
    (h : validate_config c u = .ok v) : validate_config v u = .ok v := by
  obtain ⟨b, a, m, vps, rfl, hb, ha, hm, hne, hfix⟩ := validate_config_ok_shape c u v h
  have hmap : exceptMapM (fun pr => validate_profile pr (Option.some u)) vps = .ok vps := by
    have := exceptMapM_ok_of_forall vps (fun pr => validate_profile pr (Option.some u))
      id (fun vp hv => hfix vp hv (Option.some u))
    simpa using this
  have hemp : vps.isEmpty = false := by
    cases vps with
    | nil => exact absurd rfl hne
    | cons x xs => rfl
  have s1 : validateConfigField (.dict [("BALANCE", b), ("ACTIVE", a),
      ("LAST_MENU_MESSAGE_ID", m), ("PROFILES", .list vps)]) u
      ("BALANCE", PyTy.int, false) = .ok ("BALANCE", b) := by
    simp only [validateConfigField]
    rw [if_neg (show ¬ (("BALANCE", PyTy.int, false).1 = "PROFILES") by decide)]
    rw [validateField_dict]
    simp [claimRepairedField, alookup, hb]
  have s2 : validateConfigField (.dict [("BALANCE", b), ("ACTIVE", a),
      ("LAST_MENU_MESSAGE_ID", m), ("PROFILES", .list vps)]) u
      ("ACTIVE", PyTy.bool, false) = .ok ("ACTIVE", a) := by
    simp only [validateConfigField]
    rw [if_neg (show ¬ (("ACTIVE", PyTy.bool, false).1 = "PROFILES") by decide)]
    rw [validateField_dict]
    simp [claimRepairedField, alookup, ha]
  have s3 : validateConfigField (.dict [("BALANCE", b), ("ACTIVE", a),
      ("LAST_MENU_MESSAGE_ID", m), ("PROFILES", .list vps)]) u
      ("LAST_MENU_MESSAGE_ID", PyTy.int, true) = .ok ("LAST_MENU_MESSAGE_ID", m) := by
    simp only [validateConfigField]
    rw [if_neg (show ¬ (("LAST_MENU_MESSAGE_ID", PyTy.int, true).1 = "PROFILES")
      by decide)]
    rw [validateField_dict]
    simp [claimRepairedField, alookup, hm]
  have s4 : validateConfigField (.dict [("BALANCE", b), ("ACTIVE", a),
      ("LAST_MENU_MESSAGE_ID", m), ("PROFILES", .list vps)]) u
      ("PROFILES", PyTy.list, false) = .ok ("PROFILES", .list vps) := by
    simp only [validateConfigField]
    rw [if_pos trivial]
    simp [pyGet, alookup, pyIter, hmap, hemp]
  have hall : exceptMapM (validateConfigField (.dict [("BALANCE", b), ("ACTIVE", a),
      ("LAST_MENU_MESSAGE_ID", m), ("PROFILES", .list vps)]) u) CONFIG_TYPES =
      .ok [("BALANCE", b), ("ACTIVE", a), ("LAST_MENU_MESSAGE_ID", m),
        ("PROFILES", .list vps)] :=
    exceptMapM_cons_ok _ _ _ _ _ s1
      (exceptMapM_cons_ok _ _ _ _ _ s2
        (exceptMapM_cons_ok _ _ _ _ _ s3
          (exceptMapM_cons_ok _ _ _ _ _ s4 rfl)))
  simp only [validate_config, hall]

/-- C5: validation is idempotent.  In the `Except` embedding (validation can
raise on malformed containers), composing `validate_config` with itself via
`bind` equals a single pass: errors propagate unchanged, and every successful
result is a fixed point — so saving a just-validated configuration twice in a
row stores identical content. -/
theorem c5_validate_idempotent (c : PyVal) (u : Int) :
    (validate_config c u).bind (fun v => validate_config v u) = validate_config c u := by
  cases h : validate_config c u with
  | error e => rfl
  | ok v =>
    show validate_config v u = Except.ok v
    exact validate_config_ok_fix c u v h

/-- C5 witness: a concrete configuration (the default one, with its `BALANCE`
field corrupted to a string) validates to a fixed point. -/
theorem c5_validate_idempotent_witness :
    (validate_config (.dict [("BALANCE", .str "x")]) 9).bind
        (fun v => validate_config v 9) =
      validate_config (.dict [("BALANCE", .str "x")]) 9 :=
  c5_validate_idempotent (.dict [("BALANCE", .str "x")]) 9

theorem remove_profile_ok_shape (cfg : PyVal) (i : Nat) (u : Int) (c' : PyVal)
    (h : remove_profile cfg i u = .ok c') :
    ∃ xs vps', cfg = .dict xs ∧ c' = .dict (dset xs "PROFILES" (.list vps')) ∧
      vps' ≠ [] := by
  simp only [remove_profile] at h
  cases hc : pyContains cfg "PROFILES" with
  | error e => simp only [hc] at h; exact Except.noConfusion h
  | ok hasP =>
    simp only [hc] at h
    by_cases hnp : (!hasP) = true
    · rw [if_pos hnp] at h; exact Except.noConfusion h
    · rw [if_neg hnp] at h
      cases hs : pySubscript cfg "PROFILES" with
      | error e => simp only [hs] at h; exact Except.noConfusion h
      | ok pv =>
        simp only [hs] at h
        cases hl : pyLen pv with
        | error e => simp only [hl] at h; exact Except.noConfusion h
        | ok n =>
          simp only [hl] at h
          by_cases hni : n ≤ i
          · rw [if_pos hni] at h; exact Except.noConfusion h
          · rw [if_neg hni] at h
            split at h
            · next xs ps =>
              cases h
              refine ⟨xs, _, rfl, rfl, ?_⟩
              split
              · intro hcon
                simp at hcon
              · next hpe =>
                intro hcon
                rw [hcon] at hpe
                exact hpe rfl
            · exact Except.noConfusion h

/-- C9: the profile list is never empty after any operation: validation
replaces an absent or empty profile list with a single default profile,
`remove_profile` refills a just-emptied list with a freshly defaulted profile,
and the deletion handler additionally force-clears `ACTIVE` when it deletes
the last remaining profile. -/
theorem c9_profiles_nonempty :
    (∀ (c : PyVal) (u : Int) (v : PyVal), validate_config c u = .ok v →
      ∃ entries vps, v = .dict entries ∧
        alookup entries "PROFILES" = Option.some (.list vps) ∧ vps ≠ []) ∧
    (∀ (cfg : PyVal) (i : Nat) (u : Int) (c' : PyVal),
      remove_profile cfg i u = .ok c' →
      ∃ xs vps, c' = .dict xs ∧ alookup xs "PROFILES" = Option.some (.list vps) ∧
        vps ≠ []) ∧
    (∀ (stored : PyVal) (idx : Nat) (u : Int) (c' : PyVal),
      on_profile_delete_final stored idx u = .ok c' →
      (∃ xs vps, c' = .dict xs ∧ alookup xs "PROFILES" = Option.some (.list vps) ∧
        vps ≠ []) ∧
      (validatedProfilesLen stored u = Option.some 1 →
        ∃ xs, c' = .dict xs ∧ alookup xs "ACTIVE" = Option.some (.bool false))) := by
  refine ⟨?_, ?_, ?_⟩
  · intro c u v h
    obtain ⟨b, a, m, vps, rfl, _, _, _, hne, _⟩ := validate_config_ok_shape c u v h
    exact ⟨_, vps, rfl, by simp [alookup], hne⟩
  · intro cfg i u c' h
    obtain ⟨xs, vps', _, rfl, hne⟩ := remove_profile_ok_shape cfg i u c' h
    exact ⟨_, vps', rfl, alookup_dset_self xs "PROFILES" (.list vps'), hne⟩
  · intro stored idx u c' h
    simp only [on_profile_delete_final, get_valid_config] at h
    cases hv : validate_config stored u with
    | error e => simp only [hv] at h; exact Except.noConfusion h
    | ok vcfg =>
      simp only [hv] at h
      obtain ⟨b, a, m, vps, rfl, _, _, _, hne, _⟩ :=
        validate_config_ok_shape stored u vcfg hv
      have hsub : pySubscript (.dict [("BALANCE", b), ("ACTIVE", a),
          ("LAST_MENU_MESSAGE_ID", m), ("PROFILES", .list vps)]) "PROFILES" =
          .ok (.list vps) := by
        simp [pySubscript, alookup]
      simp only [hsub] at h
      have hlen : pyLen (.list vps) = .ok vps.length := rfl
      simp only [hlen] at h
      constructor
      · by_cases hone : (vps.length == 1) = true
        · rw [if_pos hone] at h
          obtain ⟨xs, vps', _, rfl, hne'⟩ := remove_profile_ok_shape _ idx u c' h
          exact ⟨_, vps', rfl, alookup_dset_self xs "PROFILES" (.list vps'), hne'⟩
        · rw [if_neg hone] at h
          obtain ⟨xs, vps', _, rfl, hne'⟩ := remove_profile_ok_shape _ idx u c' h
          exact ⟨_, vps', rfl, alookup_dset_self xs "PROFILES" (.list vps'), hne'⟩
      · intro hvl
        simp only [validatedProfilesLen, hv] at hvl
        rw [show alookup [("BALANCE", b), ("ACTIVE", a), ("LAST_MENU_MESSAGE_ID", m),
          ("PROFILES", .list vps)] "PROFILES" = Option.some (.list vps)
          by simp [alookup]] at hvl
        have hlen1 : vps.length = 1 := Option.some.inj hvl
        rw [if_pos (by simp [hlen1])] at h
        obtain ⟨xs, vps', hxs, rfl, _⟩ := remove_profile_ok_shape _ idx u c' h
        have hxs' : xs = dset [("BALANCE", b), ("ACTIVE", a),
            ("LAST_MENU_MESSAGE_ID", m), ("PROFILES", .list vps)] "ACTIVE"
            (.bool false) := by
          injection hxs.symm
        refine ⟨_, rfl, ?_⟩
        rw [alookup_dset_other _ "PROFILES" _ "ACTIVE" (by decide), hxs']
        rw [alookup_dset_self]

theorem alookup_dsetdefault_preserve (m : List (String × PyVal)) (k' : String)
    (v : PyVal) (k : String) (w : PyVal) (h : alookup m k = Option.some w) :
    alookup (dsetdefault m k' v) k = Option.some w := by
  by_cases hk : k = k'
  · subst hk
    rw [alookup_dsetdefault_self, h]
    rfl
  · rw [alookup_dsetdefault_other m k' v k hk, h]

/-- C7 counterexample: migrating `{MIN_SUPPLY: 777, BALANCE: 5}` (no
`"PROFILES"` key) produces a single-profile configuration whose profile has no
`MIN_PRICE` at all: the missing legacy filter fields are *not* defaulted, only
`LIMIT`, `SPENT`, `BOUGHT`, `DONE` and `COUNT` are. -/
theorem c7_migration_counterexample :
    migrate_config_if_needed (.dict c7_rec) = .ok (Option.some (.dict
      [("BALANCE", .int 5), ("ACTIVE", .bool false),
       ("LAST_MENU_MESSAGE_ID", PyVal.none),
       ("PROFILES", .list [.dict
         [("MIN_SUPPLY", .int 777), ("LIMIT", .int 1000000), ("SPENT", .int 0),
          ("BOUGHT", .int 0), ("DONE", .bool false), ("COUNT", .int 5)]])])) ∧
    alookup [("MIN_SUPPLY", .int 777), ("LIMIT", .int 1000000), ("SPENT", .int 0),
      ("BOUGHT", .int 0), ("DONE", .bool false), ("COUNT", .int 5)] "MIN_PRICE" =
      Option.none :=
  ⟨rfl, rfl⟩

/-- C7 amended: a stored record without the `"PROFILES"` key migrates to a
configuration with exactly one profile that preserves every present legacy
field and defaults the missing ones among `LIMIT` (1,000,000), `SPENT` (0),
`BOUGHT` (0), `DONE` (false) and `COUNT` (5); missing filter/recipient fields
(`MIN_PRICE`, `MAX_PRICE`, `MIN_SUPPLY`, `MAX_SUPPLY`, `TARGET_USER_ID`,
`TARGET_CHAT_ID`) stay absent.  A record with a `"PROFILES"` key is left
unchanged (no rewrite). -/
theorem c7_migration_amended (xs : List (String × PyVal)) :
    (alookup xs "PROFILES" = Option.none →
      ∃ prof, migrate_config_if_needed (.dict xs) = .ok (Option.some (.dict
        [("BALANCE", (alookup xs "BALANCE").getD (.int 0)),
         ("ACTIVE", (alookup xs "ACTIVE").getD (.bool false)),
         ("LAST_MENU_MESSAGE_ID", (alookup xs "LAST_MENU_MESSAGE_ID").getD PyVal.none),
         ("PROFILES", .list [.dict prof])])) ∧
      (∀ k ∈ legacy_profile_keys, ∀ w, alookup xs k = Option.some w →
        alookup prof k = Option.some w) ∧
      (alookup xs "LIMIT" = Option.none →
        alookup prof "LIMIT" = Option.some (.int 1000000)) ∧
      (alookup xs "SPENT" = Option.none →
        alookup prof "SPENT" = Option.some (.int 0)) ∧
      (alookup xs "BOUGHT" = Option.none →
        alookup prof "BOUGHT" = Option.some (.int 0)) ∧
      (alookup xs "DONE" = Option.none →
        alookup prof "DONE" = Option.some (.bool false)) ∧
      (alookup xs "COUNT" = Option.none →
        alookup prof "COUNT" = Option.some (.int 5)) ∧
      (∀ k ∈ (["MIN_PRICE", "MAX_PRICE", "MIN_SUPPLY", "MAX_SUPPLY",
        "TARGET_USER_ID", "TARGET_CHAT_ID"] : List String),
        alookup xs k = Option.none → alookup prof k = Option.none)) ∧
    (∀ w, alookup xs "PROFILES" = Option.some w →
      migrate_config_if_needed (.dict xs) = .ok Option.none) := by
  constructor
  · intro hno
    have hc : pyContains (.dict xs) "PROFILES" = .ok false := by
      simp [pyContains, hno]
    refine ⟨dsetdefault (dsetdefault (dsetdefault (dsetdefault (dsetdefault
      (legacy_profile_keys.filterMap (fun k => (alookup xs k).map (fun v => (k, v))))
      "LIMIT" (.int 1000000)) "SPENT" (.int 0)) "BOUGHT" (.int 0))
      "DONE" (.bool false)) "COUNT" (.int 5), ?_, ?_, ?_, ?_, ?_, ?_, ?_, ?_⟩
    · simp only [migrate_config_if_needed, hc]
      rw [if_neg (by simp)]
      simp only [buildLegacyProfile_dict, List.nil_append, pyGet]
    · intro k hk w hw
      exact alookup_dsetdefault_preserve _ _ _ _ _
        (alookup_dsetdefault_preserve _ _ _ _ _
          (alookup_dsetdefault_preserve _ _ _ _ _
            (alookup_dsetdefault_preserve _ _ _ _ _
              (alookup_dsetdefault_preserve _ _ _ _ _
                ((alookup_filterMap_mem legacy_profile_keys xs k hk).trans hw)))))
    · intro hmiss
      apply alookup_dsetdefault_preserve
      apply alookup_dsetdefault_preserve
      apply alookup_dsetdefault_preserve
      apply alookup_dsetdefault_preserve
      rw [alookup_dsetdefault_self,
        (alookup_filterMap_mem legacy_profile_keys xs "LIMIT" (by decide)).trans hmiss]
      rfl
    · intro hmiss
      apply alookup_dsetdefault_preserve
      apply alookup_dsetdefault_preserve
      apply alookup_dsetdefault_preserve
      rw [alookup_dsetdefault_self,
        alookup_dsetdefault_other _ "LIMIT" _ "SPENT" (by decide),
        (alookup_filterMap_mem legacy_profile_keys xs "SPENT" (by decide)).trans hmiss]
      rfl
    · intro hmiss
      apply alookup_dsetdefault_preserve
      apply alookup_dsetdefault_preserve
      rw [alookup_dsetdefault_self,
        alookup_dsetdefault_other _ "SPENT" _ "BOUGHT" (by decide),
        alookup_dsetdefault_other _ "LIMIT" _ "BOUGHT" (by decide),
        (alookup_filterMap_mem legacy_profile_keys xs "BOUGHT" (by decide)).trans hmiss]
      rfl
    · intro hmiss
      apply alookup_dsetdefault_preserve
      rw [alookup_dsetdefault_self,
        alookup_dsetdefault_other _ "BOUGHT" _ "DONE" (by decide),
        alookup_dsetdefault_other _ "SPENT" _ "DONE" (by decide),
        alookup_dsetdefault_other _ "LIMIT" _ "DONE" (by decide),
        (alookup_filterMap_mem legacy_profile_keys xs "DONE" (by decide)).trans hmiss]
      rfl
    · intro hmiss
      rw [alookup_dsetdefault_self,
        alookup_dsetdefault_other _ "DONE" _ "COUNT" (by decide),
        alookup_dsetdefault_other _ "BOUGHT" _ "COUNT" (by decide),
        alookup_dsetdefault_other _ "SPENT" _ "COUNT" (by decide),
        alookup_dsetdefault_other _ "LIMIT" _ "COUNT" (by decide),
        (alookup_filterMap_mem legacy_profile_keys xs "COUNT" (by decide)).trans hmiss]
      rfl
    · intro k hk hmiss
      fin_cases hk <;>
        rw [alookup_dsetdefault_other _ "COUNT" _ _ (by decide),
          alookup_dsetdefault_other _ "DONE" _ _ (by decide),
          alookup_dsetdefault_other _ "BOUGHT" _ _ (by decide),
          alookup_dsetdefault_other _ "SPENT" _ _ (by decide),
          alookup_dsetdefault_other _ "LIMIT" _ _ (by decide),
          (alookup_filterMap_mem legacy_profile_keys xs _ (by decide)).trans hmiss]
  · intro w hw
    simp [migrate_config_if_needed, pyContains, hw]

theorem c7_migration_witness :
    ∃ prof, migrate_config_if_needed (.dict c7_rec) = .ok (Option.some (.dict
      [("BALANCE", (alookup c7_rec "BALANCE").getD (.int 0)),
       ("ACTIVE", (alookup c7_rec "ACTIVE").getD (.bool false)),
       ("LAST_MENU_MESSAGE_ID", (alookup c7_rec "LAST_MENU_MESSAGE_ID").getD PyVal.none),
       ("PROFILES", .list [.dict prof])])) ∧
      (∀ k ∈ legacy_profile_keys, ∀ w, alookup c7_rec k = Option.some w →
        alookup prof k = Option.some w) ∧
      (alookup c7_rec "LIMIT" = Option.none →
        alookup prof "LIMIT" = Option.some (.int 1000000)) ∧
      (alookup c7_rec "SPENT" = Option.none →
        alookup prof "SPENT" = Option.some (.int 0)) ∧
      (alookup c7_rec "BOUGHT" = Option.none →
        alookup prof "BOUGHT" = Option.some (.int 0)) ∧
      (alookup c7_rec "DONE" = Option.none →
        alookup prof "DONE" = Option.some (.bool false)) ∧
      (alookup c7_rec "COUNT" = Option.none →
        alookup prof "COUNT" = Option.some (.int 5)) ∧
      (∀ k ∈ (["MIN_PRICE", "MAX_PRICE", "MIN_SUPPLY", "MAX_SUPPLY",
        "TARGET_USER_ID", "TARGET_CHAT_ID"] : List String),
        alookup c7_rec k = Option.none → alookup prof k = Option.none) :=
  (c7_migration_amended c7_rec).1 (by rfl)

/-- C8 counterexample: a profile with *both* `TARGET_USER_ID = 123` and
`TARGET_CHAT_ID = "@chan"` set passes `validate_profile` completely unchanged,
so stored configurations in which both recipient fields are set are accepted:
the claimed mutual exclusion is not enforced by validation. -/
theorem c8_recipient_counterexample :
    validate_profile (.dict c8_bothProfile) (Option.some 77) =
      .ok (.dict c8_bothProfile) ∧
    alookup c8_bothProfile "TARGET_USER_ID" = Option.some (.int 123) ∧
    alookup c8_bothProfile "TARGET_CHAT_ID" = Option.some (.str "@chan") :=
  ⟨rfl, rfl, rfl⟩

/-- C8 amended: mutual exclusion of the recipient fields holds for the two
writers the wizard provides, not for validation: the default profile has
`TARGET_USER_ID = user_id` with `TARGET_CHAT_ID = None`, and every successful
`step_edit_user_id` edit yields a profile whose recipient is exactly one of
`(int, None)` (a user id) or `(None, str)` (an `@channel`). -/
theorem c8_recipient_amended :
    (∀ u : Int, alookup (DEFAULT_PROFILE u) "TARGET_USER_ID" =
        Option.some (.int u) ∧
      alookup (DEFAULT_PROFILE u) "TARGET_CHAT_ID" = Option.some PyVal.none) ∧
    (∀ (profile : List (String × PyVal)) (text chat_type : String)
      (res : List (String × PyVal)),
      step_edit_user_id_apply profile text chat_type = Option.some res →
      ((∃ n : Int, alookup res "TARGET_USER_ID" = Option.some (.int n) ∧
        alookup res "TARGET_CHAT_ID" = Option.some PyVal.none) ∨
       (alookup res "TARGET_USER_ID" = Option.some PyVal.none ∧
        ∃ s : String, alookup res "TARGET_CHAT_ID" = Option.some (.str s)))) := by
  constructor
  · intro u
    exact ⟨rfl, rfl⟩
  · intro profile text ct res h
    simp only [step_edit_user_id_apply, parse_recipient] at h
    split at h
    · exact Option.noConfusion h
    · rename_i tu tc heq
      cases h
      split at heq
      · split at heq
        · cases heq
          refine Or.inr ⟨?_, _, alookup_dset_self _ _ _⟩
          rw [alookup_dset_other _ "TARGET_CHAT_ID" _ "TARGET_USER_ID" (by decide)]
          exact alookup_dset_self _ _ _
        · exact Option.noConfusion heq
      · split at heq
        · cases heq
          refine Or.inl ⟨Int.ofNat (pyStrToNat (pyStrip text)), ?_,
            alookup_dset_self _ _ _⟩
          rw [alookup_dset_other _ "TARGET_CHAT_ID" _ "TARGET_USER_ID" (by decide)]
          exact alookup_dset_self _ _ _
        · exact Option.noConfusion heq

theorem c8_recipient_witness :
    (∃ n : Int, alookup c8_edited "TARGET_USER_ID" = Option.some (.int n) ∧
      alookup c8_edited "TARGET_CHAT_ID" = Option.some PyVal.none) ∨
    (alookup c8_edited "TARGET_USER_ID" = Option.some PyVal.none ∧
      ∃ s : String, alookup c8_edited "TARGET_CHAT_ID" = Option.some (.str s)) :=
  c8_recipient_amended.2 (DEFAULT_PROFILE 5) "123" "user" c8_edited (by rfl)

theorem c9_profiles_nonempty_witness :
    (∃ xs vps, (PyVal.dict (DEFAULT_CONFIG 3)) = PyVal.dict xs ∧
      alookup xs "PROFILES" = Option.some (.list vps) ∧ vps ≠ []) ∧
    (∃ xs, (PyVal.dict (DEFAULT_CONFIG 3)) = PyVal.dict xs ∧
      alookup xs "ACTIVE" = Option.some (.bool false)) := by
  have h := c9_profiles_nonempty.2.2 (.dict (DEFAULT_CONFIG 3)) 0 3
    (.dict (DEFAULT_CONFIG 3)) (by rfl)
  exact ⟨h.1, h.2 (by rfl)⟩

theorem forall₂_getElem? {α β : Type} {R : α → β → Prop} {l₁ : List α}
    {l₂ : List β} (h : List.Forall₂ R l₁ l₂) :
    ∀ (i : Nat) (a : α), l₁[i]? = Option.some a →
      ∃ b, l₂[i]? = Option.some b ∧ R a b := by
  induction h with
  | nil =>
    intro i a ha
    simp at ha
  | cons hR htail ih =>
    intro i a ha
    cases i with
    | zero =>
      simp only [List.getElem?_cons_zero, Option.some.injEq] at ha
      subst ha
      exact ⟨_, by simp, hR⟩
    | succ j =>
      simp only [List.getElem?_cons_succ] at ha ⊢
      exact ih j a ha

/-- C6 counterexample: a stored configuration whose only profile carries the
out-of-range `COUNT = -5` is returned by `get_valid_config` completely
unchanged and is *not* written back (`wrote = false`): validation replaces
only missing or type-invalid fields, it performs no range repair, so the kept
value differs from the default `COUNT = 5`. -/
theorem c6_repair_counterexample :
    get_valid_config (.dict c6_badStored) 7 = .ok (.dict c6_badStored, false) ∧
    alookup c6_badProfile "COUNT" = Option.some (.int (-5)) ∧
    dget (DEFAULT_PROFILE 7) "COUNT" = .int 5 ∧
    ¬ ((PyVal.int (-5)) = PyVal.int 5) :=
  ⟨rfl, rfl, rfl, fun h => PyVal.noConfusion h (fun h' => absurd h' (by decide))⟩

/-- C6 amended: `get_valid_config` repairs exactly the missing or type-invalid
fields.  Each top-level scalar field of the result is the stored value when
present and type-valid, otherwise the default; each profile that was stored as
a dict is validated field-by-field by the same keep-or-default rule; and the
result is written back precisely when it differs (Python `==`) from the stored
object. -/
theorem c6_repair_amended (xs : List (String × PyVal)) (u : Int) (v : PyVal)
    (wrote : Bool) (h : get_valid_config (.dict xs) u = .ok (v, wrote)) :
    wrote = !(pyEq v (.dict xs)) ∧
    ∃ vps,
      v = .dict
        [("BALANCE", claimRepairedField xs "BALANCE" PyTy.int false (.int 0)),
         ("ACTIVE", claimRepairedField xs "ACTIVE" PyTy.bool false (.bool false)),
         ("LAST_MENU_MESSAGE_ID",
           claimRepairedField xs "LAST_MENU_MESSAGE_ID" PyTy.int true PyVal.none),
         ("PROFILES", .list vps)] ∧
      ∀ pss, alookup xs "PROFILES" = Option.some (.list pss) → pss ≠ [] →
        vps.length = pss.length ∧
        ∀ (i : Nat) (ps : List (String × PyVal)),
          pss[i]? = Option.some (.dict ps) →
          vps[i]? = Option.some (.dict (PROFILE_TYPES.map (fun kta =>
            (kta.1, claimRepairedField ps kta.1 kta.2.1 kta.2.2
              (dget (DEFAULT_PROFILE u) kta.1))))) := by
  simp only [get_valid_config] at h
  cases hv : validate_config (.dict xs) u with
  | error e =>
    rw [hv] at h
    exact Except.noConfusion h
  | ok v0 =>
    rw [hv] at h
    cases h
    refine ⟨rfl, ?_⟩
    simp only [validate_config] at hv
    cases hm : exceptMapM (validateConfigField (.dict xs) u) CONFIG_TYPES with
    | error e =>
      rw [hm] at hv
      exact Except.noConfusion hv
    | ok entries =>
      rw [hm] at hv
      cases hv
      have hf := exceptMapM_forall₂ CONFIG_TYPES _ entries hm
      simp only [CONFIG_TYPES] at hf
      rcases hf with - | ⟨h1, hf⟩
      rcases hf with - | ⟨h2, hf⟩
      rcases hf with - | ⟨h3, hf⟩
      rcases hf with - | ⟨h4, hf⟩
      rcases hf with - | -
      simp only [validateConfigField] at h1 h2 h3 h4
      rw [if_neg (show ¬ ("BALANCE" = "PROFILES") by decide),
        validateField_dict] at h1
      rw [if_neg (show ¬ ("ACTIVE" = "PROFILES") by decide),
        validateField_dict] at h2
      rw [if_neg (show ¬ ("LAST_MENU_MESSAGE_ID" = "PROFILES") by decide),
        validateField_dict] at h3
      cases h1
      cases h2
      cases h3
      rw [if_pos trivial] at h4
      simp only [pyGet] at h4
      cases hi : pyIter ((alookup xs "PROFILES").getD (.list [])) with
      | error e =>
        simp only [hi] at h4
        exact Except.noConfusion h4
      | ok items =>
        simp only [hi] at h4
        cases hvp : exceptMapM (fun pr => validate_profile pr (Option.some u))
            items with
        | error e =>
          simp only [hvp] at h4
          exact Except.noConfusion h4
        | ok vps0 =>
          simp only [hvp] at h4
          cases h4
          refine ⟨if vps0.isEmpty = true then [PyVal.dict (DEFAULT_PROFILE u)]
            else vps0, rfl, ?_⟩
          intro pss hpss hpne
          rw [hpss] at hi
          simp only [Option.getD_some, pyIter] at hi
          have hitems : pss = items := Except.ok.inj hi
          rw [← hitems] at hvp
          have hf2 := exceptMapM_forall₂ pss _ vps0 hvp
          have hlen := List.Forall₂.length_eq hf2
          have hne0 : vps0 ≠ [] := by
            intro h0
            apply hpne
            rw [h0] at hlen
            exact List.length_eq_zero.mp hlen
          have hemp : vps0.isEmpty = false := by
            cases vps0 with
            | nil => exact absurd rfl hne0
            | cons a as => rfl
          refine ⟨?_, ?_⟩
          · rw [if_neg (by simp [hemp])]
            exact hlen.symm
          · intro i ps hps
            obtain ⟨b, hb, hr⟩ := forall₂_getElem? hf2 i (.dict ps) hps
            have hr' : validate_profile (.dict ps) (Option.some u) = .ok b := hr
            rw [validate_profile_dict] at hr'
            cases hr'
            rw [if_neg (by simp [hemp])]
            exact hb

theorem c6_repair_witness :
    (true = !(pyEq (PyVal.dict
      [("BALANCE", .int 0), ("ACTIVE", .bool true),
       ("LAST_MENU_MESSAGE_ID", PyVal.none),
       ("PROFILES", .list [.dict (DEFAULT_PROFILE 9)])]) (.dict c6_witStored))) ∧
    ∃ vps,
      (PyVal.dict
        [("BALANCE", .int 0), ("ACTIVE", .bool true),
         ("LAST_MENU_MESSAGE_ID", PyVal.none),
         ("PROFILES", .list [.dict (DEFAULT_PROFILE 9)])]) = .dict
        [("BALANCE", claimRepairedField c6_witStored "BALANCE" PyTy.int false
          (.int 0)),
         ("ACTIVE", claimRepairedField c6_witStored "ACTIVE" PyTy.bool false
          (.bool false)),
         ("LAST_MENU_MESSAGE_ID",
           claimRepairedField c6_witStored "LAST_MENU_MESSAGE_ID" PyTy.int true
             PyVal.none),
         ("PROFILES", .list vps)] ∧
      ∀ pss, alookup c6_witStored "PROFILES" = Option.some (.list pss) →
        pss ≠ [] →
        vps.length = pss.length ∧
        ∀ (i : Nat) (ps : List (String × PyVal)),
          pss[i]? = Option.some (.dict ps) →
          vps[i]? = Option.some (.dict (PROFILE_TYPES.map (fun kta =>
            (kta.1, claimRepairedField ps kta.1 kta.2.1 kta.2.2
              (dget (DEFAULT_PROFILE 9) kta.1))))) :=
  c6_repair_amended c6_witStored 9 (PyVal.dict
    [("BALANCE", .int 0), ("ACTIVE", .bool true),
     ("LAST_MENU_MESSAGE_ID", PyVal.none),
     ("PROFILES", .list [.dict (DEFAULT_PROFILE 9)])]) true (by rfl)
